import Mathlib

/-!
Verification of the Redis cache coordination layer of the product-catalog
backend (`src/services/redis-cache.service.ts`, the `ProductService` in the
same source set, and `src/utils/cache-errors.ts`).

The embedding idealises JavaScript numbers as rationals (`ℚ`): every finite
JS number prints as a finite decimal string and `parseFloat` of that string
returns the number; here the representable prices are exactly the
non-negative rationals with a terminating decimal expansion, printed exactly
and re-parsed exactly.  Entity identifiers are naturals (positive integers
assigned by the persistence layer).  Redis hashes are field-to-value string
maps, modelled as association lists whose only observations are field lookup
and emptiness, matching the uses in the source (`hGetAll`, `hSet`, field
access).  The single-threaded mutation of the service's statistics object is
modelled by threading an explicit state.
-/

namespace RedisCacheModel

/-- The character for a single decimal digit, as JS `Number.prototype.toString`
produces. -/
def digitChar (d : Nat) : Char :=
  match d with
  | 0 => '0' | 1 => '1' | 2 => '2' | 3 => '3' | 4 => '4'
  | 5 => '5' | 6 => '6' | 7 => '7' | 8 => '8' | _ => '9'

/-- Big-endian decimal digit characters of a positive natural number, with
explicit fuel for structural recursion. -/
def natCharsAux : Nat → Nat → List Char
  | 0, _ => []
  | fuel + 1, n =>
      if n = 0 then [] else natCharsAux fuel (n / 10) ++ [digitChar (n % 10)]

/-- Big-endian decimal digit characters of a natural number; `0` prints as
`"0"`, matching `(0).toString()` in JS. -/
def natChars (n : Nat) : List Char :=
  if n = 0 then ['0'] else natCharsAux n n

/-- Models `n.toString()` on a non-negative integral JS number. -/
def printNat (n : Nat) : String :=
  String.mk (natChars n)

/-- Numeric value of a decimal digit character. -/
def digitVal (c : Char) : Nat := c.toNat - 48

/-- Value of a big-endian run of decimal digit characters. -/
def digitsVal (l : List Char) : Nat :=
  l.foldl (fun a c => a * 10 + digitVal c) 0

/-- The JS whitespace characters relevant to `trim` / numeric parsing
(space, tab, newline, carriage return, form feed, vertical tab). -/
def jsSpace (c : Char) : Bool :=
  c = ' ' || c = '\t' || c = '\n' || c = '\r' || c = '\x0c' || c = '\x0b'

/-- Models `String.prototype.trim`: strip leading and trailing whitespace. -/
def trimJS (s : String) : String :=
  String.mk (((s.data.dropWhile jsSpace).reverse.dropWhile jsSpace).reverse)

/-- The unsigned core of JS `parseInt`: the longest leading run of decimal
digits; `none` stands for `NaN` (no digits at all). -/
def parseUInt (l : List Char) : Option Nat :=
  let ds := l.takeWhile Char.isDigit
  if ds.isEmpty then none else some (digitsVal ds)

/-- Models JS `parseInt(s)` (base 10): skip leading whitespace, optional
sign, then the longest run of decimal digits; trailing garbage is ignored
and `none` stands for `NaN`. -/
def parseIntJS (s : String) : Option Int :=
  match s.data.dropWhile jsSpace with
  | '-' :: r => (parseUInt r).map (fun n => -(n : Int))
  | '+' :: r => (parseUInt r).map (fun n => (n : Int))
  | r => (parseUInt r).map (fun n => (n : Int))

/-- The unsigned core of JS `parseFloat`: integer digits, optional `.` and
fraction digits; trailing garbage is ignored, `none` stands for `NaN`. -/
def parseUFloat (l : List Char) : Option ℚ :=
  let ip := l.takeWhile Char.isDigit
  match l.dropWhile Char.isDigit with
  | '.' :: r2 =>
      let fp := r2.takeWhile Char.isDigit
      if ip.isEmpty && fp.isEmpty then none
      else some ((digitsVal ip : ℚ) + (digitsVal fp : ℚ) / 10 ^ fp.length)
  | _ => if ip.isEmpty then none else some ((digitsVal ip : ℚ))

/-- Models JS `parseFloat(s)` for plain decimal literals (the only form the
cache ever writes): skip leading whitespace, optional sign, then the
unsigned core.  Exponent notation is outside the model (the writer never
produces it for the values at hand). -/
def parseFloatJS (s : String) : Option ℚ :=
  match s.data.dropWhile jsSpace with
  | '-' :: r => (parseUFloat r).map (fun q => -q)
  | '+' :: r => parseUFloat r
  | r => parseUFloat r

/-- Least fractional-digit count `k` (searched up to the fuel) such that
`q * 10 ^ k` is an integer; helper for the decimal printer. -/
def decExpAux (q : ℚ) : Nat → Nat → Nat
  | 0, k => k
  | fuel + 1, k => if (q * 10 ^ k).den = 1 then k else decExpAux q fuel (k + 1)

/-- Number of fractional decimal digits of a decimal rational (searched up
to 400, far beyond any JS float's printed precision). -/
def decExp (q : ℚ) : Nat := decExpAux q 400 0

/-- Decimal digit characters of `n` left-padded with zeros to width `k`. -/
def padDigits (n k : Nat) : List Char :=
  List.replicate (k - (natChars n).length) '0' ++ natChars n

/-- Decimal rendering of a non-negative decimal rational: the exact
terminating expansion with a minimal number of fractional digits. -/
def printQNonneg (q : ℚ) : String :=
  let k := decExp q
  let n := (q * 10 ^ k).num.toNat
  if k = 0 then printNat n
  else String.mk (natChars (n / 10 ^ k) ++ '.' :: padDigits (n % 10 ^ k) k)

/-- Models `x.toString()` on a finite JS number, idealised to decimal
rationals: sign followed by the exact terminating decimal expansion, with
no trailing fractional zeros (the fractional digit count is minimal). -/
def printQ (q : ℚ) : String :=
  if q < 0 then "-" ++ printQNonneg (-q) else printQNonneg q

/-- A JS number (idealised as `ℚ`) that has a terminating decimal expansion
of fewer than 400 fractional digits — the idealisation of "finite JS
number" used throughout. -/
def IsDecimalQ (q : ℚ) : Prop := ∃ k, k < 400 ∧ (q * 10 ^ k).den = 1

/-- Models `Math.ceil(a / b)` on non-negative integers (used for page
counts). -/
def jsCeilDiv (a b : Nat) : Nat := (a + b - 1) / b

/-! ### The Redis keyspace

A Redis instance holds hash-valued and string-valued keys plus per-key
expirations.  Hashes are field-to-value string maps; the service observes
them only through `hGetAll` (field lookup / emptiness), so they are
modelled as association lists with most-recent-first insertion. -/

/-- Field lookup in an association list (JS object property access:
an absent key is `undefined`, here `none`). -/
def alookup {α : Type} (l : List (String × α)) (f : String) : Option α :=
  match l with
  | [] => none
  | (k, v) :: t => if k = f then some v else alookup t f

/-- Insert-or-replace for an association list. -/
def aset {α : Type} (l : List (String × α)) (f : String) (v : α) :
    List (String × α) :=
  (f, v) :: l.filter (fun p => !decide (p.1 = f))

/-- Remove a set of keys from an association list. -/
def adrop {α : Type} (l : List (String × α)) (ks : List String) :
    List (String × α) :=
  l.filter (fun p => !decide (p.1 ∈ ks))

/-- The Redis keyspace state. -/
structure RedisState where
  hashes : List (String × List (String × String))
  strings : List (String × String)
  ttls : List (String × Nat)
deriving Repr, DecidableEq

/-- Does the key exist (as a hash or as a string)? -/
def keyExists (r : RedisState) (k : String) : Bool :=
  (alookup r.hashes k).isSome || (alookup r.strings k).isSome

/-- Models `client.hGetAll(key)`: the stored hash, `{}` when absent. -/
def hGetAll (r : RedisState) (k : String) : List (String × String) :=
  (alookup r.hashes k).getD []

/-- Merge fields into a hash (Redis `HSET` updates the named fields and
leaves other fields of the hash intact). -/
def hashMerge (h : List (String × String)) (updates : List (String × String)) :
    List (String × String) :=
  updates.foldl (fun acc fv => aset acc fv.1 fv.2) h

/-- Models `client.hSet(key, fields)`: create or merge the hash at `key`. -/
def hSet (r : RedisState) (k : String) (fields : List (String × String)) :
    RedisState :=
  { r with hashes := aset r.hashes k (hashMerge (hGetAll r k) fields) }

/-- Models `client.expire(key, ttl)`: set a TTL on an existing key; a
missing key is left untouched. -/
def expireKey (r : RedisState) (k : String) (ttl : Nat) : RedisState :=
  if keyExists r k then { r with ttls := aset r.ttls k ttl } else r

/-- Models `client.setEx(key, ttl, value)`: atomic string write with TTL. -/
def setEx (r : RedisState) (k : String) (ttl : Nat) (v : String) : RedisState :=
  { r with strings := aset r.strings k v, ttls := aset r.ttls k ttl }

/-- Models `client.get(key)`. -/
def redisGet (r : RedisState) (k : String) : Option String :=
  alookup r.strings k

/-- Models `client.del(keys)`: bulk delete, returning the number of keys
that actually existed (deleting an absent key is not an error). -/
def delKeys (r : RedisState) (ks : List String) : Nat × RedisState :=
  (ks.countP (fun k => keyExists r k),
    { hashes := adrop r.hashes ks, strings := adrop r.strings ks,
      ttls := adrop r.ttls ks })

/-- All keys currently present (what a full `SCAN` iteration visits). -/
def allKeys (r : RedisState) : List String :=
  r.hashes.map Prod.fst ++ r.strings.map Prod.fst

/-- Redis glob match for the only pattern shape the service uses:
a literal followed by `*`. -/
def patMatch (pat key : String) : Bool :=
  (String.mk (pat.data.dropLast)).isPrefixOf key

/-- Models `scanKeys(pattern)`: all keys matching the pattern. -/
def scanKeys (r : RedisState) (pat : String) : List String :=
  (allKeys r).filter (patMatch pat)

/-! ### Errors, statistics and the retry wrapper -/

/-- The JS error values thrown by the cache layer: plain `Error` (the
validation failures in `reconstructProductFromHash`), and the
`cache-errors.ts` classes `CacheConnectionError`, `CacheOperationError`
(which wraps an operation name and the original error) and
`CacheDataError` (declared in the source but, as proved below, never the
error a read surfaces). -/
inductive JsError where
  | plainError (msg : String)
  | cacheConnectionError (msg : String)
  | cacheOperationError (msg : String) (operation : String) (original : JsError)
  | cacheDataError (msg : String)
deriving Repr, DecidableEq

instance {ε α : Type} [DecidableEq ε] [DecidableEq α] :
    DecidableEq (Except ε α) := fun x y =>
  match x, y with
  | .ok a, .ok b =>
      if h : a = b then isTrue (congrArg Except.ok h)
      else isFalse (fun hh => h (Except.ok.inj hh))
  | .error a, .error b =>
      if h : a = b then isTrue (congrArg Except.error h)
      else isFalse (fun hh => h (Except.error.inj hh))
  | .ok _, .error _ => isFalse (fun hh => Except.noConfusion hh)
  | .error _, .ok _ => isFalse (fun hh => Except.noConfusion hh)

/-- The `.message` property of an error. -/
def JsError.message : JsError → String
  | .plainError m => m
  | .cacheConnectionError m => m
  | .cacheOperationError m _ _ => m
  | .cacheDataError m => m

/-- The `CacheStats` counters block; `hitRate` is a JS number. -/
structure CacheStats where
  hits : Nat
  misses : Nat
  operations : Nat
  errors : Nat
  retries : Nat
  hitRate : ℚ
deriving Repr, DecidableEq

/-- The all-zero statistics the service starts with. -/
def zeroStats : CacheStats :=
  { hits := 0, misses := 0, operations := 0, errors := 0, retries := 0,
    hitRate := 0 }

/-- Models `updateStats(hit, error, retry)`: bump `operations`, one of
`hits`/`misses`, optionally `errors` and `retries`, then recompute the
derived `hitRate`. -/
def updateStats (s : CacheStats) (hit error retry : Bool) : CacheStats :=
  let s1 := { s with operations := s.operations + 1 }
  let s2 :=
    if hit then { s1 with hits := s1.hits + 1 }
    else { s1 with misses := s1.misses + 1 }
  let s3 := if error then { s2 with errors := s2.errors + 1 } else s2
  let s4 := if retry then { s3 with retries := s3.retries + 1 } else s3
  { s4 with hitRate :=
      if s4.operations > 0 then (s4.hits : ℚ) / (s4.operations : ℚ) * 100
      else 0 }

/-- The `RetryConfig` value object. -/
structure RetryConfig where
  maxRetries : Nat
  initialDelay : Nat
  backoffFactor : Nat
  maxDelay : Nat
deriving Repr, DecidableEq

/-- The service's fixed retry policy. -/
def defaultRetryConfig : RetryConfig :=
  { maxRetries := 3, initialDelay := 100, backoffFactor := 2, maxDelay := 1000 }

/-- The mutable state a cache operation sees: the Redis keyspace, the
statistics object, the connection flag, and an environment schedule
`netFail` telling whether the Redis round-trip of a given retry attempt
fails in transit (the model of transient I/O errors). -/
structure EngineState where
  redis : RedisState
  stats : CacheStats
  connected : Bool
  netFail : Nat → Bool

/-- Result of a retried operation: the value or final error, the state
after all attempts, the backoff sleeps actually performed (in ms, in
order), and how many times the wrapped operation body was invoked. -/
structure RetryResult (α : Type) where
  result : Except JsError α
  state : EngineState
  sleeps : List Nat
  calls : Nat

/-- The loop of `executeWithRetry`.  `fuel` is the number of loop
iterations left (`maxRetries + 1` at the start); the fuel-exhausted case
corresponds to the trailing `throw lastError` after the loop, which is
unreachable for the configurations used.  Before every attempt but the
first the wrapper records a retry in the statistics, sleeps the current
delay and advances it by the backoff factor capped at `maxDelay`; when the
final allowed attempt fails it records the error and throws a
`CacheOperationError` naming the operation and wrapping the last
underlying error. -/
def retryAux {α : Type}
    (op : Nat → EngineState → Except JsError α × EngineState)
    (name : String) (cfg : RetryConfig) :
    Nat → Nat → Nat → Option JsError → EngineState → List Nat → Nat →
    RetryResult α
  | 0, _, _, lastErr, st, sleeps, calls =>
      { result := .error (lastErr.getD (.plainError "undefined")),
        state := st, sleeps := sleeps, calls := calls }
  | fuel + 1, attempt, delayMs, _lastErr, st, sleeps, calls =>
      let st1 :=
        if 0 < attempt then
          { st with stats := updateStats st.stats false false true }
        else st
      let sleeps1 := if 0 < attempt then sleeps ++ [delayMs] else sleeps
      let delay1 :=
        if 0 < attempt then min (delayMs * cfg.backoffFactor) cfg.maxDelay
        else delayMs
      match op attempt st1 with
      | (.ok a, st2) =>
          { result := .ok a, state := st2, sleeps := sleeps1,
            calls := calls + 1 }
      | (.error e, st2) =>
          if attempt = cfg.maxRetries then
            { result := .error (.cacheOperationError
                ("Operation " ++ name ++ " failed after "
                  ++ printNat cfg.maxRetries ++ " retries: " ++ e.message)
                name e),
              state := { st2 with stats := updateStats st2.stats false true false },
              sleeps := sleeps1, calls := calls + 1 }
          else
            retryAux op name cfg fuel (attempt + 1) delay1 (some e) st2
              sleeps1 (calls + 1)

/-- Models `executeWithRetry(operation, operationName, config)`. -/
def executeWithRetry {α : Type}
    (op : Nat → EngineState → Except JsError α × EngineState)
    (name : String) (cfg : RetryConfig) (st : EngineState) : RetryResult α :=
  retryAux op name cfg (cfg.maxRetries + 1) 0 cfg.initialDelay none st [] 0

/-- The statistics after a retried operation under the default policy whose
every attempt fails, where a single failing attempt transforms the
statistics by `f`: `f` at attempt 0, then three retry bumps each followed
by `f`, then the final error bump. -/
def failStatsAfter (f : CacheStats → CacheStats) (s : CacheStats) :
    CacheStats :=
  updateStats (f (updateStats (f (updateStats (f (updateStats (f s)
    false false true)) false false true)) false false true)) false true false

/-- Is an `Except` a success? -/
def exceptOk {ε α : Type} : Except ε α → Bool
  | .ok _ => true
  | .error _ => false

/-! ### The cache engine (`RedisCacheService`) -/

/-- The `Product` entity: positive integer id assigned by persistence,
name, price (JS number, idealised as `ℚ`), category. -/
structure Product where
  id : Nat
  name : String
  price : ℚ
  category : String
deriving Repr, DecidableEq

/-- `CacheOptions`: optional TTL, optional key-namespace override (the
source's `options.prefix`, called `pfx` here), optional representation
flag. -/
structure CacheOptions where
  ttl : Option Nat
  pfx : Option String
  useHash : Option Bool
deriving Repr, DecidableEq

/-- An absent `options` argument. -/
def noOptions : CacheOptions := ⟨none, none, none⟩

/-- `CACHE_PREFIX` in the source. -/
def cachePre : String := "product"

/-- `HASH_PREFIX` in the source. -/
def hashPre : String := "products_hash"

/-- `LIST_PREFIX` in the source. -/
def listPre : String := "products_list"

/-- `cacheConfig.productTTL` (default 60 seconds). -/
def productTTL : Nat := 60

/-- `cacheConfig.productListTTL` (default 300 seconds). -/
def productListTTL : Nat := 300

/-- `generateKey(key, prefix)`. -/
def generateKey (key : String) (pfx : Option String) : String :=
  pfx.getD cachePre ++ ":" ++ key

/-- `generateHashKey(id, prefix)`. -/
def generateHashKey (id : Nat) (pfx : Option String) : String :=
  pfx.getD hashPre ++ ":" ++ printNat id

/-- JS property access `productHash.f` coerced for a truthiness test: an
absent field reads as the empty string (both `undefined` and `""` are
falsy). -/
def hashField (h : List (String × String)) (f : String) : String :=
  (alookup h f).getD ""

/-- Models `reconstructProductFromHash`: require all four fields present
and truthy, `parseInt` the id and `parseFloat` the price, reject a
non-positive or unparsable id and a negative or unparsable price, and trim
the string fields.  Failures throw plain `Error`s (not `CacheDataError`s). -/
def reconstructProductFromHash (h : List (String × String)) :
    Except JsError Product :=
  if hashField h "id" = "" || hashField h "name" = ""
      || hashField h "price" = "" || hashField h "category" = "" then
    .error (.plainError "Invalid product hash data: missing required fields")
  else
    let idv := parseIntJS (hashField h "id")
    let pricev := parseFloatJS (hashField h "price")
    if idv.isNone || idv.getD 0 ≤ 0 then
      .error (.plainError "Invalid product hash data: invalid ID")
    else if pricev.isNone || pricev.getD 0 < 0 then
      .error (.plainError "Invalid product hash data: invalid price")
    else
      .ok { id := (idv.getD 0).toNat, name := trimJS (hashField h "name"),
            price := pricev.getD 0,
            category := trimJS (hashField h "category") }

/-- Models `JSON.stringify` on a product (string fields of the products at
hand contain no characters needing JSON escaping). -/
def stringifyProduct (p : Product) : String :=
  "\x7b\"id\":" ++ printNat p.id ++ ",\"name\":\"" ++ p.name
    ++ "\",\"price\":" ++ printQ p.price ++ ",\"category\":\"" ++ p.category
    ++ "\"\x7d"

/-- Models `JSON.stringify` on a product array. -/
def stringifyProducts (ps : List Product) : String :=
  "[" ++ String.intercalate "," (ps.map stringifyProduct) ++ "]"

/-- Consume an expected literal from the input. -/
def expectLit (lit l : List Char) : Option (List Char) :=
  if l.take lit.length = lit then some (l.drop lit.length) else none

/-- Consume characters up to a closing double quote. -/
def parseUntilQuote (l : List Char) : Option (String × List Char) :=
  match l.dropWhile (fun c => c ≠ '"') with
  | '"' :: r => some (String.mk (l.takeWhile (fun c => c ≠ '"')), r)
  | _ => none

/-- Consume a decimal digit run. -/
def parseNatLit (l : List Char) : Option (Nat × List Char) :=
  let ds := l.takeWhile Char.isDigit
  if ds.isEmpty then none
  else some (digitsVal ds, l.dropWhile Char.isDigit)

/-- Consume an unsigned, possibly fractional, decimal number. -/
def parseUNumLit (l : List Char) : Option (ℚ × List Char) :=
  match parseNatLit l with
  | none => none
  | some (ip, r1) =>
      match r1 with
      | '.' :: r2 =>
          match parseNatLit r2 with
          | none => none
          | some (fp, r3) =>
              some ((ip : ℚ)
                + (fp : ℚ) / 10 ^ (r2.takeWhile Char.isDigit).length, r3)
      | _ => some ((ip : ℚ), r1)

/-- Consume a (possibly signed, possibly fractional) decimal number. -/
def parseNumLit (l : List Char) : Option (ℚ × List Char) :=
  match l with
  | '-' :: r => (parseUNumLit r).map (fun x => (-x.1, x.2))
  | r => parseUNumLit r

/-- Consume one serialized product object. -/
def parseProductCore (l : List Char) : Option (Product × List Char) := do
  let l1 ← expectLit ("\x7b\"id\":".data) l
  let (idn, l2) ← parseNatLit l1
  let l3 ← expectLit (",\"name\":\"".data) l2
  let (nm, l4) ← parseUntilQuote l3
  let l5 ← expectLit (",\"price\":".data) l4
  let (pr, l6) ← parseNumLit l5
  let l7 ← expectLit (",\"category\":\"".data) l6
  let (cat, l8) ← parseUntilQuote l7
  let l9 ← expectLit ("\x7d".data) l8
  pure ({ id := idn, name := nm, price := pr, category := cat }, l9)

/-- Models `JSON.parse(s) as Product` on the strings the string-mode
writer produces; anything else throws a parse error. -/
def jsonParseProduct (s : String) : Except JsError Product :=
  match parseProductCore s.data with
  | some (p, []) => .ok p
  | _ => .error (.plainError "Unexpected token in JSON")

/-- Consume a comma-separated sequence of serialized products. -/
def parseProductsAux : Nat → List Char → Option (List Product × List Char)
  | 0, _ => none
  | fuel + 1, l =>
      match parseProductCore l with
      | none => none
      | some (p, r) =>
          match r with
          | ',' :: r2 =>
              (parseProductsAux fuel r2).map (fun x => (p :: x.1, x.2))
          | r2 => some ([p], r2)

/-- Models `JSON.parse(s) as Product[]` on the strings the list writer
produces. -/
def jsonParseProducts (s : String) : Except JsError (List Product) :=
  if s = "[]" then .ok []
  else
    match s.data with
    | '[' :: r =>
        match parseProductsAux (r.length + 1) r with
        | some (ps, [']']) => .ok ps
        | _ => .error (.plainError "Unexpected token in JSON")
    | _ => .error (.plainError "Unexpected token in JSON")

/-- The hash written by `cacheProduct` in hash mode: every scalar field
string-encoded, plus the `cachedAt` ISO timestamp. -/
def productHashFields (p : Product) (now : String) : List (String × String) :=
  [("id", printNat p.id), ("name", p.name), ("price", printQ p.price),
    ("category", p.category), ("cachedAt", now)]

/-- Body of `cacheProduct` (one attempt): connection check, then either a
hash write followed by a separate TTL call, or an atomic string
set-with-expiry of the JSON blob. -/
def cacheProductBody (p : Product) (now : String) (opts : CacheOptions)
    (attempt : Nat) (st : EngineState) : Except JsError Unit × EngineState :=
  if st.connected = false then
    (.error (.cacheConnectionError "Redis client is not connected"), st)
  else if st.netFail attempt then
    (.error (.plainError "Socket closed unexpectedly"), st)
  else
    let useHash := opts.useHash.getD true
    let ttl := opts.ttl.getD productTTL
    if useHash then
      let hk := generateHashKey p.id opts.pfx
      (.ok (),
        { st with redis :=
            expireKey (hSet st.redis hk (productHashFields p now)) hk ttl })
    else
      let key := generateKey ("single:" ++ printNat p.id) opts.pfx
      (.ok (),
        { st with redis := setEx st.redis key ttl (stringifyProduct p) })

/-- `cacheProduct(product, options)`. -/
def cacheProduct (p : Product) (now : String) (opts : CacheOptions)
    (st : EngineState) : RetryResult Unit :=
  executeWithRetry (cacheProductBody p now opts) "cacheProduct"
    defaultRetryConfig st

/-- Body of `getCachedProduct` (one attempt): in hash mode, a non-empty
hash is a hit (statistics updated before the validating reconstruction,
whose failure therefore throws after the hit was recorded); in string
mode a present string is a hit and is JSON-parsed; otherwise a miss. -/
def getCachedProductBody (id : Nat) (opts : CacheOptions) (attempt : Nat)
    (st : EngineState) : Except JsError (Option Product) × EngineState :=
  if st.connected = false then
    (.error (.cacheConnectionError "Redis client is not connected"), st)
  else if st.netFail attempt then
    (.error (.plainError "Socket closed unexpectedly"), st)
  else
    let useHash := opts.useHash.getD true
    if useHash then
      let hk := generateHashKey id opts.pfx
      let productHash := hGetAll st.redis hk
      if 0 < productHash.length then
        let st1 := { st with stats := updateStats st.stats true false false }
        match reconstructProductFromHash productHash with
        | .ok p => (.ok (some p), st1)
        | .error e => (.error e, st1)
      else
        (.ok none, { st with stats := updateStats st.stats false false false })
    else
      let key := generateKey ("single:" ++ printNat id) opts.pfx
      match redisGet st.redis key with
      | some cached =>
          let st1 := { st with stats := updateStats st.stats true false false }
          match jsonParseProduct cached with
          | .ok p => (.ok (some p), st1)
          | .error e => (.error e, st1)
      | none =>
          (.ok none, { st with stats := updateStats st.stats false false false })

/-- `getCachedProduct(id, options)`. -/
def getCachedProduct (id : Nat) (opts : CacheOptions) (st : EngineState) :
    RetryResult (Option Product) :=
  executeWithRetry (getCachedProductBody id opts) "getCachedProduct"
    defaultRetryConfig st

/-- Body of `cacheProducts` (one attempt): store the JSON-serialized array
under the list key with the list TTL. -/
def cacheProductsBody (ps : List Product) (cacheKey : String)
    (opts : CacheOptions) (attempt : Nat) (st : EngineState) :
    Except JsError Unit × EngineState :=
  if st.connected = false then
    (.error (.cacheConnectionError "Redis client is not connected"), st)
  else if st.netFail attempt then
    (.error (.plainError "Socket closed unexpectedly"), st)
  else
    let key := generateKey ("list:" ++ cacheKey) opts.pfx
    let ttl := opts.ttl.getD productListTTL
    (.ok (), { st with redis := setEx st.redis key ttl (stringifyProducts ps) })

/-- `cacheProducts(products, cacheKey, options)`. -/
def cacheProducts (ps : List Product) (cacheKey : String)
    (opts : CacheOptions) (st : EngineState) : RetryResult Unit :=
  executeWithRetry (cacheProductsBody ps cacheKey opts) "cacheProducts"
    defaultRetryConfig st

/-- Body of `getCachedProducts` (one attempt). -/
def getCachedProductsBody (cacheKey : String) (opts : CacheOptions)
    (attempt : Nat) (st : EngineState) :
    Except JsError (Option (List Product)) × EngineState :=
  if st.connected = false then
    (.error (.cacheConnectionError "Redis client is not connected"), st)
  else if st.netFail attempt then
    (.error (.plainError "Socket closed unexpectedly"), st)
  else
    let key := generateKey ("list:" ++ cacheKey) opts.pfx
    match redisGet st.redis key with
    | some cached =>
        let st1 := { st with stats := updateStats st.stats true false false }
        match jsonParseProducts cached with
        | .ok ps => (.ok (some ps), st1)
        | .error e => (.error e, st1)
    | none =>
        (.ok none, { st with stats := updateStats st.stats false false false })

/-- `getCachedProducts(cacheKey, options)`. -/
def getCachedProducts (cacheKey : String) (opts : CacheOptions)
    (st : EngineState) : RetryResult (Option (List Product)) :=
  executeWithRetry (getCachedProductsBody cacheKey opts) "getCachedProducts"
    defaultRetryConfig st

/-- The two keys `invalidateProduct` deletes with one bulk `del` call: the
hash-representation key and the string-representation key. -/
def invalidateKeys (id : Nat) (pfx : Option String) : List String :=
  [generateHashKey id pfx, generateKey ("single:" ++ printNat id) pfx]

/-- Body of `invalidateProduct` (one attempt). -/
def invalidateProductBody (id : Nat) (opts : CacheOptions) (attempt : Nat)
    (st : EngineState) : Except JsError Unit × EngineState :=
  if st.connected = false then
    (.error (.cacheConnectionError "Redis client is not connected"), st)
  else if st.netFail attempt then
    (.error (.plainError "Socket closed unexpectedly"), st)
  else
    (.ok (),
      { st with redis := (delKeys st.redis (invalidateKeys id opts.pfx)).2 })

/-- `invalidateProduct(id, options)`. -/
def invalidateProduct (id : Nat) (opts : CacheOptions) (st : EngineState) :
    RetryResult Unit :=
  executeWithRetry (invalidateProductBody id opts) "invalidateProduct"
    defaultRetryConfig st

/-- One pattern round of `invalidateProductLists`: scan, then bulk-delete
when anything matched. -/
def invalidateListsStep (r : RedisState) (pat : String) : RedisState :=
  let ks := scanKeys r pat
  if 0 < ks.length then (delKeys r ks).2 else r

/-- Body of `invalidateProductLists` (one attempt). -/
def invalidateProductListsBody (opts : CacheOptions) (attempt : Nat)
    (st : EngineState) : Except JsError Unit × EngineState :=
  if st.connected = false then
    (.error (.cacheConnectionError "Redis client is not connected"), st)
  else if st.netFail attempt then
    (.error (.plainError "Socket closed unexpectedly"), st)
  else
    let pats := [opts.pfx.getD cachePre ++ ":list:*",
      opts.pfx.getD listPre ++ ":*"]
    (.ok (), { st with redis := pats.foldl invalidateListsStep st.redis })

/-- `invalidateProductLists(options)`. -/
def invalidateProductLists (opts : CacheOptions) (st : EngineState) :
    RetryResult Unit :=
  executeWithRetry (invalidateProductListsBody opts) "invalidateProductLists"
    defaultRetryConfig st

/-- `Partial<Product>` as `updateProductHash` consumes it: the three
scalar fields, each optional. -/
structure ProductPatch where
  name : Option String
  price : Option ℚ
  category : Option String
deriving Repr, DecidableEq

/-- The `updates` record `updateProductHash` builds: exactly the supplied
scalar fields, plus always a refreshed `cachedAt` — and never `id`. -/
def hashUpdates (fields : ProductPatch) (now : String) :
    List (String × String) :=
  (match fields.name with | some n => [("name", n)] | none => []) ++
  (match fields.price with | some q => [("price", printQ q)] | none => []) ++
  (match fields.category with | some c => [("category", c)] | none => []) ++
  [("cachedAt", now)]

/-- Body of `updateProductHash` (one attempt): merge the built updates
into the hash (no TTL call). -/
def updateProductHashBody (id : Nat) (fields : ProductPatch) (now : String)
    (opts : CacheOptions) (attempt : Nat) (st : EngineState) :
    Except JsError Unit × EngineState :=
  if st.connected = false then
    (.error (.cacheConnectionError "Redis client is not connected"), st)
  else if st.netFail attempt then
    (.error (.plainError "Socket closed unexpectedly"), st)
  else
    let hk := generateHashKey id opts.pfx
    let updates := hashUpdates fields now
    if 0 < updates.length then
      (.ok (), { st with redis := hSet st.redis hk updates })
    else (.ok (), st)

/-- `updateProductHash(id, fields, options)`. -/
def updateProductHash (id : Nat) (fields : ProductPatch) (now : String)
    (opts : CacheOptions) (st : EngineState) : RetryResult Unit :=
  executeWithRetry (updateProductHashBody id fields now opts)
    "updateProductHash" defaultRetryConfig st

/-- `getCacheStats()`: a snapshot of the counters. -/
def getCacheStats (st : EngineState) : CacheStats := st.stats

/-- A cache read call: a single-product read (`getCachedProduct`) or a
list read (`getCachedProducts`). -/
inductive ReadCall where
  | single (id : Nat) (opts : CacheOptions)
  | list (key : String) (opts : CacheOptions)

/-- The state after performing one read call. -/
def runRead (c : ReadCall) (st : EngineState) : EngineState :=
  match c with
  | .single id opts => (getCachedProduct id opts st).state
  | .list key opts => (getCachedProducts key opts st).state

/-- Did the read call produce a hit (a non-null value)? -/
def readHit (c : ReadCall) (st : EngineState) : Bool :=
  match c with
  | .single id opts =>
      match (getCachedProduct id opts st).result with
      | .ok (some _) => true
      | _ => false
  | .list key opts =>
      match (getCachedProducts key opts st).result with
      | .ok (some _) => true
      | _ => false

/-- Does the call's first attempt complete without throwing (connected, no
transient failure, any present data well-formed)?  Such a call never
retries. -/
def firstAttemptOk (c : ReadCall) (st : EngineState) : Bool :=
  match c with
  | .single id opts => exceptOk (getCachedProductBody id opts 0 st).1
  | .list key opts => exceptOk (getCachedProductsBody key opts 0 st).1

/-- The state after performing a sequence of read calls in order. -/
def runReads (calls : List ReadCall) (st : EngineState) : EngineState :=
  calls.foldl (fun s c => runRead c s) st

/-- A well-formed stored hash for product 7, used in the concrete
scenarios below. -/
def demoHash : List (String × String) :=
  [("id", "7"), ("name", "A"), ("price", "5"), ("category", "C")]

/-- A connected engine whose cache holds only the hash of product 7, with
all-zero statistics and no transient failures. -/
def demoState : EngineState :=
  ⟨⟨[(generateHashKey 7 none, demoHash)], [], []⟩, zeroStats, true,
    fun _ => false⟩

/-- Two reads against `demoState`: product 7 (a hit) and product 8 (a
miss). -/
def demoCalls : List ReadCall := [.single 7 noOptions, .single 8 noOptions]

/-- Like `demoState`, but every operation's first attempt (attempt 0)
fails with a transient network error. -/
def retryDemoState : EngineState :=
  ⟨⟨[(generateHashKey 7 none, demoHash)], [], []⟩, zeroStats, true,
    fun n => decide (n = 0)⟩

/-! ### The Catalog Service (`ProductService`)

The relational store is an external collaborator; each service operation
takes the outcome of its persistence calls as an oracle argument (an
`Except` mirroring a resolved or rejected repository promise), while the
cache-engine calls run against the threaded `EngineState` through the real
modelled operations above. -/

/-- A rejected persistence promise: the driver error `code` (PostgreSQL
`23505` is a unique violation) and its message. -/
structure PersistErr where
  code : Option String
  message : String
deriving Repr, DecidableEq

/-- Errors the Catalog Service surfaces to its callers. -/
inductive SvcError where
  | conflictError (msg : String)
  | databaseError (msg : String) (detail : String)
deriving Repr, DecidableEq

/-- The `catch` block of the write paths: a `23505` persistence error
becomes a `ConflictError`, anything else a `DatabaseError` carrying the
original message. -/
def translateWriteErr (e : PersistErr) (conflictMsg dbMsg : String) :
    SvcError :=
  if e.code = some "23505" then .conflictError conflictMsg
  else .databaseError dbMsg e.message

/-- `ProductCreateData`. -/
structure ProductCreateData where
  name : String
  price : ℚ
  category : String
deriving Repr, DecidableEq

/-- `CACHE_CONFIG.PRODUCTS_TTL` (= `cacheConfig.productTTL`, 60s). -/
def productsCacheTTL : Nat := 60

/-- `ProductService.createProduct(data)`: persist first; on success,
best-effort `cacheProduct` (hash mode) then `invalidateProductLists`, any
cache failure logged and swallowed; persistence failure is re-typed. -/
def createProductS (data : ProductCreateData)
    (saveResult : Except PersistErr Product) (now : String)
    (st : EngineState) : Except SvcError Product × EngineState :=
  match saveResult with
  | .error e =>
      (.error (translateWriteErr e
        ("Product with name '" ++ data.name ++ "' already exists")
        "Could not create product due to a database error"), st)
  | .ok saved =>
      let r1 := cacheProduct saved now ⟨none, none, some true⟩ st
      match r1.result with
      | .error _ => (.ok saved, r1.state)
      | .ok _ =>
          let r2 := invalidateProductLists noOptions r1.state
          (.ok saved, r2.state)

/-- `ProductService.getProductById(id)`: try the cache (an exception is
logged and treated as a miss), fall through to persistence, best-effort
re-cache a found row. -/
def getProductByIdS (id : Nat)
    (dbFind : Except PersistErr (Option Product)) (now : String)
    (st : EngineState) : Except SvcError (Option Product) × EngineState :=
  let r1 := getCachedProduct id ⟨none, none, some true⟩ st
  match r1.result with
  | .ok (some p) => (.ok (some p), r1.state)
  | _ =>
      match dbFind with
      | .error e =>
          (.error (.databaseError
            "Could not retrieve product due to a database error" e.message),
            r1.state)
      | .ok none => (.ok none, r1.state)
      | .ok (some p) =>
          let r2 := cacheProduct p now ⟨some productsCacheTTL, none, some true⟩
            r1.state
          (.ok (some p), r2.state)

/-- `ProductQueryOptions`. -/
structure ProductQueryOptions where
  page : Option Nat
  limit : Option Nat
  category : Option String
  name : Option String
deriving Repr, DecidableEq

/-- `ProductListResponse`. -/
structure ProductListResponse where
  products : List Product
  total : Nat
  page : Nat
  limit : Nat
  totalPages : Nat
deriving Repr, DecidableEq

/-- `PAGINATION_CONFIG.DEFAULT_PAGE` (1). -/
def defaultPage : Nat := 1

/-- `PAGINATION_CONFIG.DEFAULT_LIMIT` (10). -/
def defaultLimit : Nat := 10

/-- `PAGINATION_CONFIG.MAX_LIMIT` (100). -/
def maxLimit : Nat := 100

/-- `generateProductsCacheKey(page, limit, category, name)`. -/
def generateProductsCacheKey (page limit : Nat)
    (category name : Option String) : String :=
  "products" ++ ":list:" ++ printNat page ++ ":" ++ printNat limit ++ ":"
    ++ category.getD "" ++ ":" ++ name.getD ""

/-- `ProductService.getProducts(options)`: compute pagination and the
query-fingerprint cache key; a cache hit answers entirely from the cached
array (its length stands in for the total row count); a miss or cache
error falls through to persistence (`dbResult` is the oracle for
`getManyAndCount` under the same filter and pagination), the page is then
best-effort cached.  Cache failures on either side are logged and
swallowed. -/
def getProductsS (options : ProductQueryOptions)
    (dbResult : Except PersistErr (List Product × Nat))
    (st : EngineState) : Except SvcError ProductListResponse × EngineState :=
  let page := options.page.getD defaultPage
  let limit := options.limit.getD defaultLimit
  let actualLimit := min limit maxLimit
  let cacheKey := generateProductsCacheKey page actualLimit options.category
    options.name
  let r1 := getCachedProducts cacheKey noOptions st
  match r1.result with
  | .ok (some cached) =>
      (.ok { products := cached, total := cached.length, page := page,
             limit := actualLimit,
             totalPages := jsCeilDiv cached.length actualLimit }, r1.state)
  | _ =>
      match dbResult with
      | .error e =>
          (.error (.databaseError
            "Could not retrieve product list due to a database error"
            e.message), r1.state)
      | .ok (products, total) =>
          let r2 := cacheProducts products cacheKey
            ⟨some productsCacheTTL, none, none⟩ r1.state
          (.ok { products := products, total := total, page := page,
                 limit := actualLimit,
                 totalPages := jsCeilDiv total actualLimit }, r2.state)

/-- `ProductService.updateProduct(id, data)`: find, save, then best-effort
partial hash update (the source passes the whole updated row, so all three
scalar fields are supplied) and list invalidation; cache failures never
fail the update. -/
def updateProductS (id : Nat) (dataName : Option String)
    (findResult : Except PersistErr (Option Product))
    (saveResult : Except PersistErr Product) (now : String)
    (st : EngineState) : Except SvcError (Option Product) × EngineState :=
  let conflictMsg :=
    "Product with name '" ++ dataName.getD "undefined" ++ "' already exists"
  match findResult with
  | .error e =>
      (.error (translateWriteErr e conflictMsg
        "Could not update product due to a database error"), st)
  | .ok none => (.ok none, st)
  | .ok (some _) =>
      match saveResult with
      | .error e =>
          (.error (translateWriteErr e conflictMsg
            "Could not update product due to a database error"), st)
      | .ok updated =>
          let r1 := updateProductHash id
            ⟨some updated.name, some updated.price, some updated.category⟩
            now noOptions st
          match r1.result with
          | .error _ => (.ok (some updated), r1.state)
          | .ok _ =>
              let r2 := invalidateProductLists noOptions r1.state
              (.ok (some updated), r2.state)

/-- `ProductService.deleteProduct(id)`: persist the delete; only when a
row was actually removed, best-effort invalidate the entity and list
caches; cache failures never fail the delete. -/
def deleteProductS (id : Nat) (delResult : Except PersistErr Nat)
    (st : EngineState) : Except SvcError Bool × EngineState :=
  match delResult with
  | .error e =>
      (.error (.databaseError
        "Could not delete product due to a database error" e.message), st)
  | .ok affected =>
      if 0 < affected then
        let r1 := invalidateProduct id noOptions st
        match r1.result with
        | .error _ => (.ok true, r1.state)
        | .ok _ =>
            let r2 := invalidateProductLists noOptions r1.state
            (.ok true, r2.state)
      else (.ok false, st)

/-! ### Lemmas: decimal printing and parsing -/

theorem digitVal_digitChar {d : Nat} (h : d < 10) :
    digitVal (digitChar d) = d := by
  interval_cases d <;> decide

theorem isDigit_digitChar {d : Nat} (h : d < 10) :
    (digitChar d).isDigit = true := by
  interval_cases d <;> decide

theorem natCharsAux_eq : ∀ fuel n, n ≤ fuel →
    natCharsAux fuel n = ((Nat.digits 10 n).map digitChar).reverse
  | 0, n => by
      intro h
      interval_cases n
      simp [natCharsAux]
  | fuel + 1, n => by
      intro h
      unfold natCharsAux
      by_cases hn : n = 0
      · simp [hn]
      · rw [if_neg hn]
        have hdiv : n / 10 ≤ fuel := by
          have := Nat.div_lt_self (Nat.pos_of_ne_zero hn)
            (by norm_num : 1 < 10)
          omega
        rw [natCharsAux_eq fuel (n / 10) hdiv,
          Nat.digits_def' (by norm_num : 1 < 10) (Nat.pos_of_ne_zero hn)]
        simp

/-- The structurally recursive printer agrees with the `Nat.digits`
characterisation. -/
theorem natChars_eq (n : Nat) :
    natChars n
      = if n = 0 then ['0']
        else ((Nat.digits 10 n).map digitChar).reverse := by
  unfold natChars
  by_cases hn : n = 0 <;> simp [hn, natCharsAux_eq n n le_rfl]

theorem natChars_ne_nil (n : Nat) : natChars n ≠ [] := by
  rw [natChars_eq]
  split
  · simp
  · simp [Nat.digits_ne_nil_iff_ne_zero, *]

theorem natChars_all_digits (n : Nat) :
    ∀ c ∈ natChars n, c.isDigit = true := by
  rw [natChars_eq]
  split
  · simp
  · intro c hc
    simp only [List.mem_reverse, List.mem_map] at hc
    obtain ⟨d, hd, rfl⟩ := hc
    exact isDigit_digitChar (Nat.digits_lt_base (by norm_num) hd)

theorem digitsVal_append_singleton (l : List Char) (c : Char) :
    digitsVal (l ++ [c]) = digitsVal l * 10 + digitVal c := by
  simp [digitsVal, List.foldl_append]

theorem digitsVal_rev_map (L : List Nat) (h : ∀ d ∈ L, d < 10) :
    digitsVal ((L.map digitChar).reverse) = Nat.ofDigits 10 L := by
  induction L with
  | nil => simp [digitsVal, Nat.ofDigits]
  | cons d L ih =>
      have hd : d < 10 := h d (by simp)
      have hL : ∀ x ∈ L, x < 10 := fun x hx => h x (by simp [hx])
      simp only [List.map_cons, List.reverse_cons, digitsVal_append_singleton,
        ih hL, Nat.ofDigits_cons, digitVal_digitChar hd]
      ring

theorem digitsVal_natChars (n : Nat) : digitsVal (natChars n) = n := by
  rw [natChars_eq]
  split
  · simp [digitsVal, *]
    decide
  · rw [digitsVal_rev_map _ (fun d hd => Nat.digits_lt_base (by norm_num) hd),
      Nat.ofDigits_digits]

theorem digitsVal_replicate_zero (m : Nat) (l : List Char) :
    digitsVal (List.replicate m '0' ++ l) = digitsVal l := by
  induction m with
  | zero => simp
  | succ m ih =>
      simpa [List.replicate_succ, digitsVal] using ih

theorem takeWhile_append_of_all {p : Char → Bool} {l : List Char}
    (r : List Char) (h : ∀ c ∈ l, p c = true) :
    (l ++ r).takeWhile p = l ++ r.takeWhile p := by
  induction l with
  | nil => simp
  | cons c l ih =>
      have hc : p c = true := h c (by simp)
      simp [List.takeWhile, hc, ih (fun x hx => h x (by simp [hx]))]

theorem dropWhile_append_of_all {p : Char → Bool} {l : List Char}
    (r : List Char) (h : ∀ c ∈ l, p c = true) :
    (l ++ r).dropWhile p = r.dropWhile p := by
  induction l with
  | nil => simp
  | cons c l ih =>
      have hc : p c = true := h c (by simp)
      simp [List.dropWhile, hc, ih (fun x hx => h x (by simp [hx]))]

theorem takeWhile_eq_self_of_all {p : Char → Bool} {l : List Char}
    (h : ∀ c ∈ l, p c = true) : l.takeWhile p = l := by
  induction l with
  | nil => simp
  | cons c l ih =>
      simp [List.takeWhile, h c (by simp), ih (fun x hx => h x (by simp [hx]))]

theorem dropWhile_eq_nil_of_all {p : Char → Bool} {l : List Char}
    (h : ∀ c ∈ l, p c = true) : l.dropWhile p = [] := by
  induction l with
  | nil => simp
  | cons c l ih =>
      simp [List.dropWhile, h c (by simp), ih (fun x hx => h x (by simp [hx]))]

theorem dropWhile_eq_self_of_all {p : Char → Bool} {l : List Char}
    (h : ∀ c ∈ l, p c = false) : l.dropWhile p = l := by
  cases l with
  | nil => simp
  | cons c l => simp [List.dropWhile, h c (by simp)]

theorem jsSpace_of_isDigit {c : Char} (h : c.isDigit = true) :
    jsSpace c = false := by
  by_contra hs
  simp only [Bool.not_eq_false, jsSpace, Bool.or_eq_true, decide_eq_true_eq]
    at hs
  rcases hs with ((((rfl | rfl) | rfl) | rfl) | rfl) | rfl <;> simp_all

theorem isDigit_not_dot {c : Char} (h : c.isDigit = true) : c ≠ '.' := by
  rintro rfl; simp_all

theorem isDigit_not_minus {c : Char} (h : c.isDigit = true) : c ≠ '-' := by
  rintro rfl; simp_all

theorem isDigit_not_plus {c : Char} (h : c.isDigit = true) : c ≠ '+' := by
  rintro rfl; simp_all

theorem natChars_length_le {n k : Nat} (hk : 0 < k) (h : n < 10 ^ k) :
    (natChars n).length ≤ k := by
  rw [natChars_eq]
  split
  · simpa using hk
  · simp only [List.length_reverse, List.length_map]
    have h1 : 10 ^ (Nat.digits 10 n).length ≤ 10 * n :=
      Nat.base_pow_length_digits_le 10 n (by norm_num) (by assumption)
    have h2 : 10 * n < 10 ^ (k + 1) := by
      calc 10 * n < 10 * 10 ^ k := by omega
        _ = 10 ^ (k + 1) := by ring
    have h3 : 10 ^ (Nat.digits 10 n).length < 10 ^ (k + 1) := by omega
    have := (Nat.pow_lt_pow_iff_right (by norm_num : 1 < 10)).mp h3
    omega

theorem padDigits_length {n k : Nat} (h : (natChars n).length ≤ k) :
    (padDigits n k).length = k := by
  simp [padDigits]
  omega

theorem padDigits_all_digits (n k : Nat) :
    ∀ c ∈ padDigits n k, c.isDigit = true := by
  intro c hc
  rcases List.mem_append.mp hc with h | h
  · rcases List.eq_of_mem_replicate h with rfl; decide
  · exact natChars_all_digits n c h

theorem digitsVal_padDigits (n k : Nat) :
    digitsVal (padDigits n k) = n := by
  rw [padDigits, digitsVal_replicate_zero, digitsVal_natChars]

theorem decExpAux_den (q : ℚ) :
    ∀ fuel k, (∃ j, k ≤ j ∧ j < k + fuel ∧ (q * 10 ^ j).den = 1) →
      (q * 10 ^ decExpAux q fuel k).den = 1
  | 0, k => by
      rintro ⟨j, h1, h2, _⟩; omega
  | fuel + 1, k => by
      rintro ⟨j, h1, h2, h3⟩
      unfold decExpAux
      split
      · assumption
      · apply decExpAux_den q fuel (k + 1)
        refine ⟨j, ?_, by omega, h3⟩
        rcases Nat.eq_or_lt_of_le h1 with rfl | h
        · simp_all
        · omega

theorem decExp_den {q : ℚ} (hd : IsDecimalQ q) :
    (q * 10 ^ decExp q).den = 1 := by
  obtain ⟨k, hk, hden⟩ := hd
  exact decExpAux_den q 400 0 ⟨k, by omega, by omega, hden⟩

/-- For a non-negative decimal rational, the quantity the printer renders
is exactly `q` scaled to an integer. -/
theorem printQ_scale {q : ℚ} (h0 : 0 ≤ q) (hd : IsDecimalQ q) :
    ((((q * 10 ^ decExp q).num.toNat : ℚ))) = q * 10 ^ decExp q := by
  have hden := decExp_den hd
  have hnum : ((q * 10 ^ decExp q).num : ℚ) = q * 10 ^ decExp q :=
    (Rat.den_eq_one_iff _).mp hden
  have hnn : 0 ≤ (q * 10 ^ decExp q).num := by
    rw [Rat.num_nonneg]; positivity
  calc (((q * 10 ^ decExp q).num.toNat : ℚ))
      = (((q * 10 ^ decExp q).num.toNat : ℤ) : ℚ) := by push_cast; ring
    _ = ((q * 10 ^ decExp q).num : ℚ) := by rw [Int.toNat_of_nonneg hnn]
    _ = q * 10 ^ decExp q := hnum

theorem parseUFloat_all_digits {l : List Char} (hne : l ≠ [])
    (hd : ∀ c ∈ l, c.isDigit = true) :
    parseUFloat l = some ((digitsVal l : ℚ)) := by
  unfold parseUFloat
  rw [takeWhile_eq_self_of_all hd, dropWhile_eq_nil_of_all hd]
  simp [List.isEmpty_iff, hne]

theorem parseUFloat_digits_dot {ip rest : List Char} (hne : ip ≠ [])
    (hip : ∀ c ∈ ip, c.isDigit = true)
    (hrest : ∀ c ∈ rest, c.isDigit = true) :
    parseUFloat (ip ++ '.' :: rest)
      = some ((digitsVal ip : ℚ) + (digitsVal rest : ℚ) / 10 ^ rest.length) := by
  unfold parseUFloat
  rw [takeWhile_append_of_all _ hip, dropWhile_append_of_all _ hip]
  have h1 : ('.' :: rest).takeWhile Char.isDigit = [] := by
    simp [List.takeWhile]
  have h2 : ('.' :: rest).dropWhile Char.isDigit = '.' :: rest := by
    simp [List.dropWhile]
  rw [h1, h2]
  simp [List.isEmpty_iff, hne, takeWhile_eq_self_of_all hrest]

theorem parseFloatJS_mk_of_head_digit {c : Char} {cs : List Char}
    (hc : c.isDigit = true) :
    parseFloatJS (String.mk (c :: cs)) = parseUFloat (c :: cs) := by
  have h1 : jsSpace c = false := jsSpace_of_isDigit hc
  have hdw : (c :: cs).dropWhile jsSpace = c :: cs := by
    simp [List.dropWhile, h1]
  unfold parseFloatJS
  rw [show (String.mk (c :: cs)).data = c :: cs from rfl, hdw]
  split
  · next r heq =>
      exfalso
      have : c = '-' := (List.cons.injEq _ _ _ _ ▸ heq).1
      subst this; simp_all
  · next r heq =>
      exfalso
      have : c = '+' := (List.cons.injEq _ _ _ _ ▸ heq).1
      subst this; simp_all
  · rfl

theorem parseUInt_all_digits {l : List Char} (hne : l ≠ [])
    (hd : ∀ c ∈ l, c.isDigit = true) :
    parseUInt l = some (digitsVal l) := by
  unfold parseUInt
  rw [takeWhile_eq_self_of_all hd]
  simp [List.isEmpty_iff, hne]

theorem parseIntJS_mk_of_head_digit {c : Char} {cs : List Char}
    (hc : c.isDigit = true) :
    parseIntJS (String.mk (c :: cs))
      = (parseUInt (c :: cs)).map (fun n => (n : Int)) := by
  have h1 : jsSpace c = false := jsSpace_of_isDigit hc
  have hdw : (c :: cs).dropWhile jsSpace = c :: cs := by
    simp [List.dropWhile, h1]
  unfold parseIntJS
  rw [show (String.mk (c :: cs)).data = c :: cs from rfl, hdw]
  split
  · next r heq =>
      exfalso
      have : c = '-' := (List.cons.injEq _ _ _ _ ▸ heq).1
      subst this; simp_all
  · next r heq =>
      exfalso
      have : c = '+' := (List.cons.injEq _ _ _ _ ▸ heq).1
      subst this; simp_all
  · rfl

theorem parseIntJS_printNat (n : Nat) :
    parseIntJS (printNat n) = some ((n : Int)) := by
  have hall := natChars_all_digits n
  have hne := natChars_ne_nil n
  rw [printNat]
  cases hnc : natChars n with
  | nil => exact absurd hnc hne
  | cons c cs =>
      rw [hnc] at hall
      rw [parseIntJS_mk_of_head_digit (hall c (by simp)),
        parseUInt_all_digits (by simp) hall]
      have : digitsVal (c :: cs) = n := by
        rw [← hnc, digitsVal_natChars]
      simp [this]

theorem parseFloatJS_printNat (n : Nat) :
    parseFloatJS (printNat n) = some ((n : ℚ)) := by
  have hall := natChars_all_digits n
  have hne := natChars_ne_nil n
  rw [printNat]
  cases hnc : natChars n with
  | nil => exact absurd hnc hne
  | cons c cs =>
      rw [hnc] at hall
      rw [parseFloatJS_mk_of_head_digit (hall c (by simp)),
        parseUFloat_all_digits (by simp) hall]
      have : digitsVal (c :: cs) = n := by
        rw [← hnc, digitsVal_natChars]
      simp [this]

/-- `parseFloat` inverts the printer on non-negative decimal rationals:
the idealised form of the JS guarantee `parseFloat(x.toString()) === x`. -/
theorem parseFloatJS_printQNonneg {q : ℚ} (h0 : 0 ≤ q) (hd : IsDecimalQ q) :
    parseFloatJS (printQNonneg q) = some q := by
  have hscale := printQ_scale h0 hd
  rw [printQNonneg]
  by_cases hk : decExp q = 0
  · rw [if_pos hk, parseFloatJS_printNat, hk]
    rw [hk] at hscale
    simp only [pow_zero, mul_one] at hscale ⊢
    rw [hscale]
  · rw [if_neg hk]
    set k := decExp q with hkdef
    set n := (q * 10 ^ k).num.toNat with hndef
    have hb : n % 10 ^ k < 10 ^ k := Nat.mod_lt _ (by positivity)
    have hlen : (padDigits (n % 10 ^ k) k).length = k :=
      padDigits_length (natChars_length_le (by omega) hb)
    have halla := natChars_all_digits (n / 10 ^ k)
    have hnea := natChars_ne_nil (n / 10 ^ k)
    cases hnc : natChars (n / 10 ^ k) with
    | nil => exact absurd hnc hnea
    | cons c cs =>
        rw [hnc] at halla
        rw [List.cons_append, parseFloatJS_mk_of_head_digit (halla c (by simp)),
          ← List.cons_append,
          parseUFloat_digits_dot (by simp) halla (padDigits_all_digits _ _)]
        have hva : digitsVal (c :: cs) = n / 10 ^ k := by
          rw [← hnc, digitsVal_natChars]
        rw [hva, digitsVal_padDigits, hlen]
        congr 1
        have hmod : 10 ^ k * (n / 10 ^ k) + n % 10 ^ k = n :=
          Nat.div_add_mod n (10 ^ k)
        have hpk : ((10 : ℚ) ^ k) ≠ 0 := by positivity
        have hqn : q = (n : ℚ) / 10 ^ k := (eq_div_iff hpk).mpr hscale.symm
        have hq : ((10 ^ k * (n / 10 ^ k) + n % 10 ^ k : Nat) : ℚ) = (n : ℚ) := by
          exact_mod_cast hmod
        push_cast at hq
        rw [hqn, eq_div_iff hpk]
        field_simp
        linarith [hq]

theorem parseFloatJS_printQ {q : ℚ} (h0 : 0 ≤ q) (hd : IsDecimalQ q) :
    parseFloatJS (printQ q) = some q := by
  rw [printQ, if_neg (by exact not_lt.mpr h0)]
  exact parseFloatJS_printQNonneg h0 hd

theorem printNat_ne_empty (n : Nat) : printNat n ≠ "" := by
  rw [printNat]
  intro h
  have hd : natChars n = [] := by
    have := congrArg String.data h
    simpa using this
  exact natChars_ne_nil n hd

theorem printQNonneg_ne_empty (q : ℚ) : printQNonneg q ≠ "" := by
  rw [printQNonneg]
  split
  · exact printNat_ne_empty _
  · intro h
    have hd := congrArg String.data h
    simp at hd

theorem printQ_ne_empty (q : ℚ) : printQ q ≠ "" := by
  rw [printQ]
  split
  · intro h
    have hd := congrArg String.data h
    rw [show ("-" ++ printQNonneg (-q)).data
      = '-' :: (printQNonneg (-q)).data from rfl] at hd
    simp at hd
  · exact printQNonneg_ne_empty q

/-! ### Lemmas: the keyspace model -/

theorem alookup_aset_self {α : Type} (l : List (String × α)) (k : String)
    (v : α) : alookup (aset l k v) k = some v := by
  simp [aset, alookup]

theorem alookup_filter_ne {α : Type} (l : List (String × α)) {k k' : String}
    (h : k' ≠ k) :
    alookup (l.filter (fun p => !decide (p.1 = k))) k' = alookup l k' := by
  induction l with
  | nil => rfl
  | cons a t ih =>
      rw [List.filter_cons]
      by_cases ha : a.1 = k
      · rw [if_neg (by simp [ha])]
        rw [ih, alookup, if_neg (by rw [ha]; exact fun hh => h hh.symm)]
      · rw [if_pos (by simp [ha])]
        rw [alookup, alookup]
        split
        · rfl
        · exact ih

theorem alookup_aset_other {α : Type} (l : List (String × α))
    {k k' : String} (v : α) (h : k' ≠ k) :
    alookup (aset l k v) k' = alookup l k' := by
  rw [aset, alookup, if_neg (fun hh => h hh.symm), alookup_filter_ne l h]

theorem hGetAll_hSet_self (r : RedisState) (k : String)
    (fields : List (String × String)) :
    hGetAll (hSet r k fields) k = hashMerge (hGetAll r k) fields := by
  simp [hGetAll, hSet, alookup_aset_self]

theorem hGetAll_expireKey (r : RedisState) (k k' : String) (ttl : Nat) :
    hGetAll (expireKey r k ttl) k' = hGetAll r k' := by
  rw [expireKey]
  split <;> rfl

theorem redisGet_expireKey (r : RedisState) (k k' : String) (ttl : Nat) :
    redisGet (expireKey r k ttl) k' = redisGet r k' := by
  rw [expireKey]
  split <;> rfl

theorem alookup_adrop {α : Type} (l : List (String × α)) (ks : List String)
    (k : String) (h : k ∈ ks) : alookup (adrop l ks) k = none := by
  induction l with
  | nil => rfl
  | cons a t ih =>
      rw [adrop, List.filter_cons]
      by_cases ha : a.1 ∈ ks
      · rw [if_neg (by simp [ha])]
        exact ih
      · rw [if_pos (by simp [ha]), alookup,
          if_neg (fun hh => ha (by rw [hh]; exact h))]
        exact ih

theorem hGetAll_delKeys (r : RedisState) (ks : List String) (k : String)
    (h : k ∈ ks) : hGetAll (delKeys r ks).2 k = [] := by
  simp [hGetAll, delKeys, alookup_adrop _ _ _ h]

theorem redisGet_delKeys (r : RedisState) (ks : List String) (k : String)
    (h : k ∈ ks) : redisGet (delKeys r ks).2 k = none := by
  simp [redisGet, delKeys, alookup_adrop _ _ _ h]

/-! ### Lemmas: the retry wrapper -/

/-- An operation whose first attempt succeeds runs exactly once: no
sleeps, no statistics activity from the wrapper itself. -/
theorem executeWithRetry_first_ok {α : Type}
    (op : Nat → EngineState → Except JsError α × EngineState)
    (name : String) (st st' : EngineState) (a : α)
    (h : op 0 st = (.ok a, st')) :
    executeWithRetry op name defaultRetryConfig st =
      { result := .ok a, state := st', sleeps := [], calls := 1 } := by
  unfold executeWithRetry defaultRetryConfig
  unfold retryAux
  simp [h]

/-- An operation that fails on the first attempt and succeeds on the
second runs twice, sleeps 100ms once, and records one retry. -/
theorem executeWithRetry_second_ok {α : Type}
    (op : Nat → EngineState → Except JsError α × EngineState)
    (name : String) (st st2 : EngineState) (e : JsError) (a : α)
    (h0 : op 0 st = (.error e, st))
    (h1 : op 1 ⟨st.redis, updateStats st.stats false false true,
      st.connected, st.netFail⟩ = (.ok a, st2)) :
    executeWithRetry op name defaultRetryConfig st =
      { result := .ok a, state := st2, sleeps := [100], calls := 2 } := by
  unfold executeWithRetry defaultRetryConfig
  unfold retryAux
  norm_num
  rw [h0]
  unfold retryAux
  norm_num
  rw [h1]

/-- An operation that fails on every attempt (transforming the statistics
by `f` each time without touching the keyspace, connectivity or failure
schedule) runs exactly `maxRetries + 1 = 4` times, sleeps 100, 200 and
400ms, and surfaces a `CacheOperationError` naming the operation and
wrapping the last underlying error, after the final error bump. -/
theorem executeWithRetry_all_fail {α : Type}
    (op : Nat → EngineState → Except JsError α × EngineState)
    (name : String) (es : Nat → JsError) (f : CacheStats → CacheStats)
    (st : EngineState)
    (hop : ∀ n st', st'.redis = st.redis → st'.connected = st.connected →
      st'.netFail = st.netFail →
      op n st' = (.error (es n), { st' with stats := f st'.stats })) :
    executeWithRetry op name defaultRetryConfig st =
      { result := .error (.cacheOperationError
          ("Operation " ++ name ++ " failed after 3 retries: "
            ++ (es 3).message) name (es 3)),
        state := { st with stats := failStatsAfter f st.stats },
        sleeps := [100, 200, 400], calls := 4 } := by
  have h3 : printNat 3 = "3" := by decide
  unfold executeWithRetry defaultRetryConfig
  unfold retryAux
  norm_num
  rw [hop 0 st rfl rfl rfl]
  unfold retryAux
  norm_num
  rw [hop 1 ⟨st.redis, updateStats (f st.stats) false false true,
    st.connected, st.netFail⟩ rfl rfl rfl]
  unfold retryAux
  norm_num
  rw [hop 2 ⟨st.redis, updateStats (f (updateStats (f st.stats) false false
    true)) false false true, st.connected, st.netFail⟩ rfl rfl rfl]
  unfold retryAux
  norm_num
  rw [hop 3 ⟨st.redis, updateStats (f (updateStats (f (updateStats
    (f st.stats) false false true)) false false true)) false false true,
    st.connected, st.netFail⟩ rfl rfl rfl]
  simp [failStatsAfter, h3]
  congr 1
  rw [String.append_assoc, String.append_assoc]
  congr 1

/-! ### Lemmas: single attempts of the cache operations -/

theorem getCachedProductBody_hit {id : Nat} {opts : CacheOptions}
    {attempt : Nat} {st : EngineState} {h : List (String × String)}
    {p : Product}
    (hconn : st.connected = true) (hnf : st.netFail attempt = false)
    (huse : opts.useHash.getD true = true)
    (hh : hGetAll st.redis (generateHashKey id opts.pfx) = h)
    (hne : h ≠ []) (hrec : reconstructProductFromHash h = .ok p) :
    getCachedProductBody id opts attempt st =
      (.ok (some p),
        { st with stats := updateStats st.stats true false false }) := by
  simp [getCachedProductBody, hconn, hnf, huse, hh, hrec,
    List.length_pos, hne]

theorem getCachedProductBody_err {id : Nat} {opts : CacheOptions}
    {attempt : Nat} {st : EngineState} {h : List (String × String)}
    {e : JsError}
    (hconn : st.connected = true) (hnf : st.netFail attempt = false)
    (huse : opts.useHash.getD true = true)
    (hh : hGetAll st.redis (generateHashKey id opts.pfx) = h)
    (hne : h ≠ []) (hrec : reconstructProductFromHash h = .error e) :
    getCachedProductBody id opts attempt st =
      (.error e,
        { st with stats := updateStats st.stats true false false }) := by
  simp [getCachedProductBody, hconn, hnf, huse, hh, hrec,
    List.length_pos, hne]

theorem getCachedProductBody_missHash {id : Nat} {opts : CacheOptions}
    {attempt : Nat} {st : EngineState}
    (hconn : st.connected = true) (hnf : st.netFail attempt = false)
    (huse : opts.useHash.getD true = true)
    (hh : hGetAll st.redis (generateHashKey id opts.pfx) = []) :
    getCachedProductBody id opts attempt st =
      (.ok none,
        { st with stats := updateStats st.stats false false false }) := by
  simp [getCachedProductBody, hconn, hnf, huse, hh]

theorem getCachedProductBody_missStr {id : Nat} {opts : CacheOptions}
    {attempt : Nat} {st : EngineState}
    (hconn : st.connected = true) (hnf : st.netFail attempt = false)
    (huse : opts.useHash.getD true = false)
    (hg : redisGet st.redis
      (generateKey ("single:" ++ printNat id) opts.pfx) = none) :
    getCachedProductBody id opts attempt st =
      (.ok none,
        { st with stats := updateStats st.stats false false false }) := by
  simp [getCachedProductBody, hconn, hnf, huse, hg]

theorem getCachedProductBody_disconnected {id : Nat} {opts : CacheOptions}
    {attempt : Nat} {st : EngineState} (hconn : st.connected = false) :
    getCachedProductBody id opts attempt st =
      (.error (.cacheConnectionError "Redis client is not connected"),
        st) := by
  simp [getCachedProductBody, hconn]

theorem cacheProductBody_hash {p : Product} {now : String}
    {opts : CacheOptions} {attempt : Nat} {st : EngineState}
    (hconn : st.connected = true) (hnf : st.netFail attempt = false)
    (huse : opts.useHash.getD true = true) :
    cacheProductBody p now opts attempt st =
      (.ok (),
        { st with
          redis :=
            expireKey (hSet st.redis (generateHashKey p.id opts.pfx)
                (productHashFields p now))
              (generateHashKey p.id opts.pfx) (opts.ttl.getD productTTL) }) := by
  simp [cacheProductBody, hconn, hnf, huse]

theorem hashUpdates_length_pos (fields : ProductPatch) (now : String) :
    0 < (hashUpdates fields now).length := by
  rcases fields with ⟨n, pr, c⟩
  cases n <;> cases pr <;> cases c <;> simp [hashUpdates]

theorem updateProductHashBody_eq {id : Nat} {fields : ProductPatch}
    {now : String} {opts : CacheOptions} {attempt : Nat} {st : EngineState}
    (hconn : st.connected = true) (hnf : st.netFail attempt = false) :
    updateProductHashBody id fields now opts attempt st =
      (.ok (),
        { st with
          redis :=
            hSet st.redis (generateHashKey id opts.pfx)
              (hashUpdates fields now) }) := by
  simp [updateProductHashBody, hconn, hnf, hashUpdates_length_pos]

theorem invalidateProductBody_eq {id : Nat} {opts : CacheOptions}
    {attempt : Nat} {st : EngineState}
    (hconn : st.connected = true) (hnf : st.netFail attempt = false) :
    invalidateProductBody id opts attempt st =
      (.ok (),
        { st with
          redis :=
            (delKeys st.redis (invalidateKeys id opts.pfx)).2 }) := by
  simp [invalidateProductBody, hconn, hnf]

theorem getCachedProductsBody_hit {key : String} {opts : CacheOptions}
    {attempt : Nat} {st : EngineState} {c : String} {ps : List Product}
    (hconn : st.connected = true) (hnf : st.netFail attempt = false)
    (hg : redisGet st.redis (generateKey ("list:" ++ key) opts.pfx) = some c)
    (hp : jsonParseProducts c = .ok ps) :
    getCachedProductsBody key opts attempt st =
      (.ok (some ps),
        { st with stats := updateStats st.stats true false false }) := by
  simp [getCachedProductsBody, hconn, hnf, hg, hp]

theorem getCachedProductsBody_miss {key : String} {opts : CacheOptions}
    {attempt : Nat} {st : EngineState}
    (hconn : st.connected = true) (hnf : st.netFail attempt = false)
    (hg : redisGet st.redis
      (generateKey ("list:" ++ key) opts.pfx) = none) :
    getCachedProductsBody key opts attempt st =
      (.ok none,
        { st with stats := updateStats st.stats false false false }) := by
  simp [getCachedProductsBody, hconn, hnf, hg]

/-! ### Lemmas: the retried cache operations -/

theorem cacheProduct_hash_ok {p : Product} {now : String}
    {opts : CacheOptions} {st : EngineState}
    (hconn : st.connected = true) (hnf : st.netFail 0 = false)
    (huse : opts.useHash.getD true = true) :
    cacheProduct p now opts st =
      { result := .ok (),
        state :=
          { st with
            redis :=
              expireKey (hSet st.redis (generateHashKey p.id opts.pfx)
                  (productHashFields p now))
                (generateHashKey p.id opts.pfx) (opts.ttl.getD productTTL) },
        sleeps := [], calls := 1 } :=
  executeWithRetry_first_ok _ _ _ _ _ (cacheProductBody_hash hconn hnf huse)

theorem getCachedProduct_hit {id : Nat} {opts : CacheOptions}
    {st : EngineState} {h : List (String × String)} {p : Product}
    (hconn : st.connected = true) (hnf : st.netFail 0 = false)
    (huse : opts.useHash.getD true = true)
    (hh : hGetAll st.redis (generateHashKey id opts.pfx) = h)
    (hne : h ≠ []) (hrec : reconstructProductFromHash h = .ok p) :
    getCachedProduct id opts st =
      { result := .ok (some p),
        state := { st with stats := updateStats st.stats true false false },
        sleeps := [], calls := 1 } :=
  executeWithRetry_first_ok _ _ _ _ _
    (getCachedProductBody_hit hconn hnf huse hh hne hrec)

theorem getCachedProduct_missHash {id : Nat} {opts : CacheOptions}
    {st : EngineState}
    (hconn : st.connected = true) (hnf : st.netFail 0 = false)
    (huse : opts.useHash.getD true = true)
    (hh : hGetAll st.redis (generateHashKey id opts.pfx) = []) :
    getCachedProduct id opts st =
      { result := .ok none,
        state := { st with stats := updateStats st.stats false false false },
        sleeps := [], calls := 1 } :=
  executeWithRetry_first_ok _ _ _ _ _
    (getCachedProductBody_missHash hconn hnf huse hh)

theorem getCachedProduct_missStr {id : Nat} {opts : CacheOptions}
    {st : EngineState}
    (hconn : st.connected = true) (hnf : st.netFail 0 = false)
    (huse : opts.useHash.getD true = false)
    (hg : redisGet st.redis
      (generateKey ("single:" ++ printNat id) opts.pfx) = none) :
    getCachedProduct id opts st =
      { result := .ok none,
        state := { st with stats := updateStats st.stats false false false },
        sleeps := [], calls := 1 } :=
  executeWithRetry_first_ok _ _ _ _ _
    (getCachedProductBody_missStr hconn hnf huse hg)

/-- A hash-mode read of a non-empty but invalid hash is retried to
exhaustion (the hit was recorded before each failing reconstruction) and
surfaces a `CacheOperationError` wrapping the validation error. -/
theorem getCachedProduct_malformed {id : Nat} {opts : CacheOptions}
    {st : EngineState} {h : List (String × String)} {e : JsError}
    (hconn : st.connected = true) (hnf : ∀ n, st.netFail n = false)
    (huse : opts.useHash.getD true = true)
    (hh : hGetAll st.redis (generateHashKey id opts.pfx) = h)
    (hne : h ≠ []) (hrec : reconstructProductFromHash h = .error e) :
    getCachedProduct id opts st =
      { result := .error (.cacheOperationError
          ("Operation getCachedProduct failed after 3 retries: "
            ++ e.message) "getCachedProduct" e),
        state :=
          { st with
            stats :=
              failStatsAfter (fun s => updateStats s true false false)
                st.stats },
        sleeps := [100, 200, 400], calls := 4 } :=
  executeWithRetry_all_fail _ _ (fun _ => e)
    (fun s => updateStats s true false false) st
    (fun n st' hr hc hn =>
      getCachedProductBody_err (hc.trans hconn) (by rw [hn]; exact hnf n)
        huse (by rw [hr]; exact hh) hne hrec)

/-- A read attempted while disconnected fails every attempt with the
connection error and surfaces a `CacheOperationError` wrapping it. -/
theorem getCachedProduct_disconnected {id : Nat} {opts : CacheOptions}
    {st : EngineState} (hconn : st.connected = false) :
    getCachedProduct id opts st =
      { result := .error (.cacheOperationError
          ("Operation getCachedProduct failed after 3 retries: "
            ++ "Redis client is not connected") "getCachedProduct"
          (.cacheConnectionError "Redis client is not connected")),
        state := { st with stats := failStatsAfter (fun s => s) st.stats },
        sleeps := [100, 200, 400], calls := 4 } :=
  executeWithRetry_all_fail _ _
    (fun _ => .cacheConnectionError "Redis client is not connected")
    (fun s => s) st
    (fun _ _ _ hc _ =>
      getCachedProductBody_disconnected (hc.trans hconn))

theorem getCachedProducts_hit {key : String} {opts : CacheOptions}
    {st : EngineState} {c : String} {ps : List Product}
    (hconn : st.connected = true) (hnf : st.netFail 0 = false)
    (hg : redisGet st.redis (generateKey ("list:" ++ key) opts.pfx) = some c)
    (hp : jsonParseProducts c = .ok ps) :
    getCachedProducts key opts st =
      { result := .ok (some ps),
        state := { st with stats := updateStats st.stats true false false },
        sleeps := [], calls := 1 } :=
  executeWithRetry_first_ok _ _ _ _ _
    (getCachedProductsBody_hit hconn hnf hg hp)

theorem getCachedProducts_miss {key : String} {opts : CacheOptions}
    {st : EngineState}
    (hconn : st.connected = true) (hnf : st.netFail 0 = false)
    (hg : redisGet st.redis (generateKey ("list:" ++ key) opts.pfx) = none) :
    getCachedProducts key opts st =
      { result := .ok none,
        state := { st with stats := updateStats st.stats false false false },
        sleeps := [], calls := 1 } :=
  executeWithRetry_first_ok _ _ _ _ _
    (getCachedProductsBody_miss hconn hnf hg)

theorem getCachedProductsBody_disconnected {key : String}
    {opts : CacheOptions} {attempt : Nat} {st : EngineState}
    (hconn : st.connected = false) :
    getCachedProductsBody key opts attempt st =
      (.error (.cacheConnectionError "Redis client is not connected"),
        st) := by
  simp [getCachedProductsBody, hconn]

/-- A list read attempted while disconnected fails every attempt with the
connection error and surfaces a `CacheOperationError` wrapping it. -/
theorem getCachedProducts_disconnected {key : String} {opts : CacheOptions}
    {st : EngineState} (hconn : st.connected = false) :
    getCachedProducts key opts st =
      { result := .error (.cacheOperationError
          ("Operation getCachedProducts failed after 3 retries: "
            ++ "Redis client is not connected") "getCachedProducts"
          (.cacheConnectionError "Redis client is not connected")),
        state := { st with stats := failStatsAfter (fun s => s) st.stats },
        sleeps := [100, 200, 400], calls := 4 } :=
  executeWithRetry_all_fail _ _
    (fun _ => .cacheConnectionError "Redis client is not connected")
    (fun s => s) st
    (fun _ _ _ hc _ =>
      getCachedProductsBody_disconnected (hc.trans hconn))

theorem updateProductHash_ok {id : Nat} {fields : ProductPatch}
    {now : String} {opts : CacheOptions} {st : EngineState}
    (hconn : st.connected = true) (hnf : st.netFail 0 = false) :
    updateProductHash id fields now opts st =
      { result := .ok (),
        state :=
          { st with
            redis :=
              hSet st.redis (generateHashKey id opts.pfx)
                (hashUpdates fields now) },
        sleeps := [], calls := 1 } :=
  executeWithRetry_first_ok _ _ _ _ _ (updateProductHashBody_eq hconn hnf)

theorem invalidateProduct_ok {id : Nat} {opts : CacheOptions}
    {st : EngineState}
    (hconn : st.connected = true) (hnf : st.netFail 0 = false) :
    invalidateProduct id opts st =
      { result := .ok (),
        state :=
          { st with
            redis :=
              (delKeys st.redis (invalidateKeys id opts.pfx)).2 },
        sleeps := [], calls := 1 } :=
  executeWithRetry_first_ok _ _ _ _ _ (invalidateProductBody_eq hconn hnf)

/-! ### Lemmas: hash contents after writes, and reconstruction -/

theorem hashField_merge_productHashFields
    (h0 : List (String × String)) (p : Product) (now : String) :
    hashField (hashMerge h0 (productHashFields p now)) "id" = printNat p.id
    ∧ hashField (hashMerge h0 (productHashFields p now)) "name" = p.name
    ∧ hashField (hashMerge h0 (productHashFields p now)) "price"
        = printQ p.price
    ∧ hashField (hashMerge h0 (productHashFields p now)) "category"
        = p.category
    ∧ hashMerge h0 (productHashFields p now) ≠ [] := by
  simp only [productHashFields, hashMerge, List.foldl, hashField]
  refine ⟨?_, ?_, ?_, ?_, ?_⟩ <;> simp [alookup, aset]

/-- A hash carrying exactly the printed fields of a valid product
reconstructs to that product. -/
theorem reconstruct_valid {h : List (String × String)} {p : Product}
    (hid : hashField h "id" = printNat p.id)
    (hname : hashField h "name" = p.name)
    (hprice : hashField h "price" = printQ p.price)
    (hcat : hashField h "category" = p.category)
    (hpos : 0 < p.id) (hpr0 : 0 ≤ p.price) (hdec : IsDecimalQ p.price)
    (hnm : trimJS p.name = p.name) (hnme : p.name ≠ "")
    (hct : trimJS p.category = p.category) (hcte : p.category ≠ "") :
    reconstructProductFromHash h = .ok p := by
  have hidpos : ¬((p.id : Int) ≤ 0) := by omega
  unfold reconstructProductFromHash
  rw [hid, hname, hprice, hcat, parseIntJS_printNat,
    parseFloatJS_printQ hpr0 hdec]
  simp [printNat_ne_empty, printQ_ne_empty, hnme, hcte, hnm, hct,
    hidpos, not_lt.mpr hpr0]

/-- C1. For every product with positive integer id, non-negative
decimal price, and untrimmable non-empty name and category, `cacheProduct`
in hash mode followed immediately by `getCachedProduct` in hash mode with
the same options returns a product equal to the original in all required
fields. -/
theorem cacheProduct_getCachedProduct_roundtrip
    (p : Product) (now : String) (opts : CacheOptions) (st : EngineState)
    (hconn : st.connected = true) (hnf0 : st.netFail 0 = false)
    (huse : opts.useHash.getD true = true)
    (hpos : 0 < p.id) (hpr0 : 0 ≤ p.price) (hdec : IsDecimalQ p.price)
    (hnm : trimJS p.name = p.name) (hnme : p.name ≠ "")
    (hct : trimJS p.category = p.category) (hcte : p.category ≠ "") :
    (getCachedProduct p.id opts (cacheProduct p now opts st).state).result
      = .ok (some p) := by
  have hst : (cacheProduct p now opts st).state
      = { st with
          redis :=
            expireKey (hSet st.redis (generateHashKey p.id opts.pfx)
                (productHashFields p now))
              (generateHashKey p.id opts.pfx) (opts.ttl.getD productTTL) } := by
    rw [cacheProduct_hash_ok hconn hnf0 huse]
  rw [hst]
  obtain ⟨hid, hname, hprice, hcat, hne⟩ :=
    hashField_merge_productHashFields
      (hGetAll st.redis (generateHashKey p.id opts.pfx)) p now
  rw [@getCachedProduct_hit p.id opts
    ⟨expireKey (hSet st.redis (generateHashKey p.id opts.pfx)
        (productHashFields p now))
      (generateHashKey p.id opts.pfx) (opts.ttl.getD productTTL),
      st.stats, st.connected, st.netFail⟩
    (hashMerge (hGetAll st.redis (generateHashKey p.id opts.pfx))
      (productHashFields p now)) p
    hconn hnf0 huse
    (by rw [show (⟨expireKey (hSet st.redis (generateHashKey p.id opts.pfx)
        (productHashFields p now))
        (generateHashKey p.id opts.pfx) (opts.ttl.getD productTTL),
        st.stats, st.connected, st.netFail⟩ : EngineState).redis
        = expireKey (hSet st.redis (generateHashKey p.id opts.pfx)
            (productHashFields p now))
          (generateHashKey p.id opts.pfx) (opts.ttl.getD productTTL)
        from rfl, hGetAll_expireKey, hGetAll_hSet_self])
    hne
    (reconstruct_valid hid hname hprice hcat hpos hpr0 hdec hnm hnme hct
      hcte)]

/-- Witness for C1: a concrete product round-trips through an initially
empty, connected cache. -/
theorem cacheProduct_getCachedProduct_roundtrip_witness :
    (getCachedProduct 7 ⟨none, none, some true⟩
        (cacheProduct ⟨7, "Widget", 5, "Tools"⟩ "2024-01-01T00:00:00.000Z"
          ⟨none, none, some true⟩
          ⟨⟨[], [], []⟩, zeroStats, true, fun _ => false⟩).state).result
      = .ok (some ⟨7, "Widget", 5, "Tools"⟩) :=
  cacheProduct_getCachedProduct_roundtrip ⟨7, "Widget", 5, "Tools"⟩
    "2024-01-01T00:00:00.000Z" ⟨none, none, some true⟩
    ⟨⟨[], [], []⟩, zeroStats, true, fun _ => false⟩
    rfl rfl rfl (by decide) (by simp) ⟨0, by decide, by simp⟩
    (by decide) (by decide) (by decide) (by decide)

/-- C6. `invalidateProduct` deletes the hash-representation key and the
string-representation key in one bulk delete (an absent key is not an
error), and a subsequent `getCachedProduct` misses in either representation
mode under the same namespace. -/
theorem invalidateProduct_then_miss
    (id : Nat) (pfx : Option String) (t1 t2 t3 : Option Nat)
    (u1 : Option Bool) (st : EngineState)
    (hconn : st.connected = true) (hnf0 : st.netFail 0 = false) :
    (invalidateProduct id ⟨t1, pfx, u1⟩ st).result = .ok ()
    ∧ (invalidateProduct id ⟨t1, pfx, u1⟩ st).state.redis
        = (delKeys st.redis [generateHashKey id pfx,
            generateKey ("single:" ++ printNat id) pfx]).2
    ∧ (getCachedProduct id ⟨t2, pfx, some true⟩
        (invalidateProduct id ⟨t1, pfx, u1⟩ st).state).result = .ok none
    ∧ (getCachedProduct id ⟨t3, pfx, some false⟩
        (invalidateProduct id ⟨t1, pfx, u1⟩ st).state).result
        = .ok none := by
  have hinv := @invalidateProduct_ok id ⟨t1, pfx, u1⟩ st hconn hnf0
  rw [hinv]
  refine ⟨rfl, rfl, ?_, ?_⟩
  · rw [@getCachedProduct_missHash id ⟨t2, pfx, some true⟩
      ⟨(delKeys st.redis (invalidateKeys id pfx)).2, st.stats, st.connected,
        st.netFail⟩ hconn hnf0 rfl
      (hGetAll_delKeys _ _ _ (by simp [invalidateKeys]))]
  · rw [@getCachedProduct_missStr id ⟨t3, pfx, some false⟩
      ⟨(delKeys st.redis (invalidateKeys id pfx)).2, st.stats, st.connected,
        st.netFail⟩ hconn hnf0 rfl
      (redisGet_delKeys _ _ _ (by simp [invalidateKeys]))]

/-- Witness for C6 on a concrete cache holding both representations of
product 9. -/
theorem invalidateProduct_then_miss_witness :
    (invalidateProduct 9 ⟨none, none, none⟩
      ⟨⟨[("products_hash:9", [("id", "9"), ("name", "N"), ("price", "2"),
          ("category", "K"), ("cachedAt", "T")])],
        [("product:single:9", "x")], []⟩, zeroStats, true,
        fun _ => false⟩).result = .ok ()
    ∧ (invalidateProduct 9 ⟨none, none, none⟩
        ⟨⟨[("products_hash:9", [("id", "9"), ("name", "N"), ("price", "2"),
            ("category", "K"), ("cachedAt", "T")])],
          [("product:single:9", "x")], []⟩, zeroStats, true,
          fun _ => false⟩).state.redis
        = (delKeys ⟨[("products_hash:9", [("id", "9"), ("name", "N"),
            ("price", "2"), ("category", "K"), ("cachedAt", "T")])],
            [("product:single:9", "x")], []⟩
            ["products_hash:9", "product:single:9"]).2
    ∧ (getCachedProduct 9 ⟨none, none, some true⟩
        (invalidateProduct 9 ⟨none, none, none⟩
          ⟨⟨[("products_hash:9", [("id", "9"), ("name", "N"), ("price", "2"),
              ("category", "K"), ("cachedAt", "T")])],
            [("product:single:9", "x")], []⟩, zeroStats, true,
            fun _ => false⟩).state).result = .ok none
    ∧ (getCachedProduct 9 ⟨none, none, some false⟩
        (invalidateProduct 9 ⟨none, none, none⟩
          ⟨⟨[("products_hash:9", [("id", "9"), ("name", "N"), ("price", "2"),
              ("category", "K"), ("cachedAt", "T")])],
            [("product:single:9", "x")], []⟩, zeroStats, true,
            fun _ => false⟩).state).result = .ok none := by
  have h := invalidateProduct_then_miss 9 none none none none none
    ⟨⟨[("products_hash:9", [("id", "9"), ("name", "N"), ("price", "2"),
        ("category", "K"), ("cachedAt", "T")])],
      [("product:single:9", "x")], []⟩, zeroStats, true, fun _ => false⟩
    rfl rfl
  exact ⟨h.1, by rw [h.2.1]; decide, h.2.2.1, h.2.2.2⟩

/-- The fields of a hash after merging a name-only update: the new name,
the refreshed timestamp, and everything else untouched. -/
theorem hashField_merge_nameUpdate (m : List (String × String))
    (nm now₂ : String) :
    hashField (hashMerge m [("name", nm), ("cachedAt", now₂)]) "name" = nm
    ∧ hashField (hashMerge m [("name", nm), ("cachedAt", now₂)]) "id"
        = hashField m "id"
    ∧ hashField (hashMerge m [("name", nm), ("cachedAt", now₂)]) "price"
        = hashField m "price"
    ∧ hashField (hashMerge m [("name", nm), ("cachedAt", now₂)]) "category"
        = hashField m "category"
    ∧ hashMerge m [("name", nm), ("cachedAt", now₂)] ≠ [] := by
  simp only [hashMerge, List.foldl, hashField]
  refine ⟨?_, ?_, ?_, ?_, ?_⟩
  · rw [alookup_aset_other _ _ (by decide), alookup_aset_self]
    rfl
  · rw [alookup_aset_other _ _ (by decide), alookup_aset_other _ _ (by decide)]
  · rw [alookup_aset_other _ _ (by decide), alookup_aset_other _ _ (by decide)]
  · rw [alookup_aset_other _ _ (by decide), alookup_aset_other _ _ (by decide)]
  · simp [aset]

/-- C7. `updateProductHash` writes only the supplied scalar fields plus
a refreshed `cachedAt` (only `cachedAt` when nothing is supplied), and a
name-only update on a previously cached valid product leaves price and
category as they were: the subsequent read returns the new name and the old
price and category. -/
theorem updateProductHash_partial_merge
    (p : Product) (nm now now₂ : String) (opts : CacheOptions)
    (st : EngineState)
    (hconn : st.connected = true) (hnf0 : st.netFail 0 = false)
    (huse : opts.useHash.getD true = true)
    (hpos : 0 < p.id) (hpr0 : 0 ≤ p.price) (hdec : IsDecimalQ p.price)
    (hct : trimJS p.category = p.category) (hcte : p.category ≠ "")
    (hnm2 : trimJS nm = nm) (hnme2 : nm ≠ "") :
    hashUpdates ⟨some nm, none, none⟩ now₂ = [("name", nm), ("cachedAt", now₂)]
    ∧ hashUpdates ⟨none, none, none⟩ now₂ = [("cachedAt", now₂)]
    ∧ (getCachedProduct p.id opts
        (updateProductHash p.id ⟨some nm, none, none⟩ now₂ opts
          (cacheProduct p now opts st).state).state).result
      = .ok (some ⟨p.id, nm, p.price, p.category⟩) := by
  refine ⟨rfl, rfl, ?_⟩
  have hst : (cacheProduct p now opts st).state
      = { st with
          redis :=
            expireKey (hSet st.redis (generateHashKey p.id opts.pfx)
                (productHashFields p now))
              (generateHashKey p.id opts.pfx) (opts.ttl.getD productTTL) } := by
    rw [cacheProduct_hash_ok hconn hnf0 huse]
  rw [hst]
  have hupd := @updateProductHash_ok p.id ⟨some nm, none, none⟩ now₂ opts
    ⟨expireKey (hSet st.redis (generateHashKey p.id opts.pfx)
        (productHashFields p now))
      (generateHashKey p.id opts.pfx) (opts.ttl.getD productTTL),
      st.stats, st.connected, st.netFail⟩ hconn hnf0
  rw [hupd]
  obtain ⟨hid1, hname1, hprice1, hcat1, _⟩ :=
    hashField_merge_productHashFields
      (hGetAll st.redis (generateHashKey p.id opts.pfx)) p now
  obtain ⟨hname2, hid2, hprice2, hcat2, hne2⟩ :=
    hashField_merge_nameUpdate
      (hashMerge (hGetAll st.redis (generateHashKey p.id opts.pfx))
        (productHashFields p now)) nm now₂
  have hh : hGetAll (hSet (expireKey (hSet st.redis
        (generateHashKey p.id opts.pfx) (productHashFields p now))
        (generateHashKey p.id opts.pfx) (opts.ttl.getD productTTL))
        (generateHashKey p.id opts.pfx)
        (hashUpdates ⟨some nm, none, none⟩ now₂))
      (generateHashKey p.id opts.pfx)
      = hashMerge (hashMerge (hGetAll st.redis (generateHashKey p.id
          opts.pfx)) (productHashFields p now))
        [("name", nm), ("cachedAt", now₂)] := by
    rw [hGetAll_hSet_self, hGetAll_expireKey, hGetAll_hSet_self]
    rfl
  rw [@getCachedProduct_hit p.id opts
    ⟨hSet (expireKey (hSet st.redis (generateHashKey p.id opts.pfx)
        (productHashFields p now))
        (generateHashKey p.id opts.pfx) (opts.ttl.getD productTTL))
      (generateHashKey p.id opts.pfx)
      (hashUpdates ⟨some nm, none, none⟩ now₂),
      st.stats, st.connected, st.netFail⟩
    (hashMerge (hashMerge (hGetAll st.redis (generateHashKey p.id opts.pfx))
        (productHashFields p now)) [("name", nm), ("cachedAt", now₂)])
    ⟨p.id, nm, p.price, p.category⟩
    hconn hnf0 huse hh hne2
    (reconstruct_valid (hid2.trans hid1) (hname2)
      (hprice2.trans hprice1) (hcat2.trans hcat1)
      hpos hpr0 hdec hnm2 hnme2 hct hcte)]

/-- Witness for C7: caching product 7 then updating only the name yields
the new name with the old price and category. -/
theorem updateProductHash_partial_merge_witness :
    hashUpdates ⟨some "X", none, none⟩ "T2"
      = [("name", "X"), ("cachedAt", "T2")]
    ∧ hashUpdates ⟨none, none, none⟩ "T2" = [("cachedAt", "T2")]
    ∧ (getCachedProduct 7 ⟨none, none, some true⟩
        (updateProductHash 7 ⟨some "X", none, none⟩ "T2"
          ⟨none, none, some true⟩
          (cacheProduct ⟨7, "Widget", 5, "Tools"⟩ "T1"
            ⟨none, none, some true⟩
            ⟨⟨[], [], []⟩, zeroStats, true, fun _ => false⟩).state).state).result
      = .ok (some ⟨7, "X", 5, "Tools"⟩) :=
  updateProductHash_partial_merge ⟨7, "Widget", 5, "Tools"⟩ "X" "T1" "T2"
    ⟨none, none, some true⟩ ⟨⟨[], [], []⟩, zeroStats, true, fun _ => false⟩
    rfl rfl rfl (by decide) (by simp) ⟨0, by decide, by simp⟩
    (by decide) (by decide) (by decide) (by decide)

theorem alookup_append {α : Type} (l1 l2 : List (String × α)) (f : String) :
    alookup (l1 ++ l2) f
      = match alookup l1 f with
        | some v => some v
        | none => alookup l2 f := by
  induction l1 with
  | nil => rfl
  | cons a t ih =>
      by_cases h : a.1 = f
      · simp [alookup, h]
      · simp [alookup, h, ih]

theorem alookup_none_of_not_mem {α : Type} (l : List (String × α))
    (f : String) (h : f ∉ l.map Prod.fst) : alookup l f = none := by
  induction l with
  | nil => rfl
  | cons a t ih =>
      simp only [List.map_cons, List.mem_cons, not_or] at h
      rw [alookup, if_neg (fun hh => h.1 hh.symm)]
      exact ih h.2

/-- Merging a duplicate-free field list into an empty hash yields exactly
those fields. -/
theorem alookup_hashMerge_nil (updates : List (String × String))
    (hnd : (updates.map Prod.fst).Nodup) (f : String) :
    alookup (hashMerge [] updates) f = alookup updates f := by
  induction updates using List.reverseRecOn with
  | nil => rfl
  | append_singleton us u ih =>
      have hsep : ((us.map Prod.fst).Nodup) ∧ u.1 ∉ us.map Prod.fst := by
        rw [List.map_append] at hnd
        rw [List.nodup_append] at hnd
        exact ⟨hnd.1, fun hm => hnd.2.2 hm (by simp)⟩
      have hstep : hashMerge [] (us ++ [u])
          = aset (hashMerge [] us) u.1 u.2 := by
        simp [hashMerge, List.foldl_append]
      rw [hstep]
      by_cases h : f = u.1
      · subst h
        rw [alookup_aset_self, alookup_append,
          alookup_none_of_not_mem us _ hsep.2]
        simp [alookup]
      · rw [alookup_aset_other _ _ h, ih hsep.1, alookup_append]
        cases heq : alookup us f
        · show none = alookup [u] f
          simp only [alookup]
          rw [if_neg (fun hh => h hh.symm)]
        · rfl

theorem hashUpdates_no_id (fields : ProductPatch) (now : String) :
    alookup (hashUpdates fields now) "id" = none := by
  rcases fields with ⟨n, pr, c⟩
  cases n <;> cases pr <;> cases c <;> simp [hashUpdates, alookup]

theorem hashUpdates_keys_nodup (fields : ProductPatch) (now : String) :
    ((hashUpdates fields now).map Prod.fst).Nodup := by
  rcases fields with ⟨n, pr, c⟩
  cases n <;> cases pr <;> cases c <;> simp [hashUpdates]

theorem hashUpdates_split (fields : ProductPatch) (now : String) :
    ∃ pre, hashUpdates fields now = pre ++ [("cachedAt", now)] :=
  ⟨_, rfl⟩

theorem hashMerge_nil_hashUpdates_ne_nil (fields : ProductPatch)
    (now : String) : hashMerge [] (hashUpdates fields now) ≠ [] := by
  obtain ⟨pre, hp⟩ := hashUpdates_split fields now
  rw [hp]
  simp [hashMerge, List.foldl_append, aset]

/-- C10. `updateProductHash` never writes the `id` field; invoked for
an id with no hash entry it creates an entry holding exactly the supplied
fields plus `cachedAt` — no `id`, no expiry — and a subsequent hash-mode
read of that id fails with a `CacheOperationError` wrapping the
missing-required-fields validation error, rather than missing or returning
an entity. -/
theorem updateProductHash_absent_entry
    (id : Nat) (fields : ProductPatch) (now : String) (opts : CacheOptions)
    (st : EngineState)
    (hconn : st.connected = true) (hnf : ∀ n, st.netFail n = false)
    (huse : opts.useHash.getD true = true)
    (habs : alookup st.redis.hashes (generateHashKey id opts.pfx) = none)
    (httl : alookup st.redis.ttls (generateHashKey id opts.pfx) = none) :
    (updateProductHash id fields now opts st).result = .ok ()
    ∧ (∀ f, alookup (hGetAll
          (updateProductHash id fields now opts st).state.redis
          (generateHashKey id opts.pfx)) f
        = alookup (hashUpdates fields now) f)
    ∧ alookup (hashUpdates fields now) "id" = none
    ∧ alookup (updateProductHash id fields now opts st).state.redis.ttls
        (generateHashKey id opts.pfx) = none
    ∧ (getCachedProduct id opts
        (updateProductHash id fields now opts st).state).result
      = .error (.cacheOperationError
          ("Operation getCachedProduct failed after 3 retries: Invalid product hash data: missing required fields")
          "getCachedProduct"
          (.plainError "Invalid product hash data: missing required fields")) := by
  have hupd := @updateProductHash_ok id fields now opts st hconn (hnf 0)
  rw [hupd]
  have hempty : hGetAll st.redis (generateHashKey id opts.pfx) = [] := by
    rw [hGetAll, habs]
    rfl
  have hget : hGetAll (hSet st.redis (generateHashKey id opts.pfx)
      (hashUpdates fields now)) (generateHashKey id opts.pfx)
      = hashMerge [] (hashUpdates fields now) := by
    rw [hGetAll_hSet_self, hempty]
  refine ⟨rfl, ?_, hashUpdates_no_id fields now, ?_, ?_⟩
  · intro f
    rw [hget, alookup_hashMerge_nil _ (hashUpdates_keys_nodup fields now)]
  · exact httl
  · have hrec : reconstructProductFromHash
        (hashMerge [] (hashUpdates fields now))
        = .error (.plainError
            "Invalid product hash data: missing required fields") := by
      have hid : hashField (hashMerge [] (hashUpdates fields now)) "id"
          = "" := by
        rw [hashField, alookup_hashMerge_nil _
          (hashUpdates_keys_nodup fields now), hashUpdates_no_id]
        rfl
      rw [reconstructProductFromHash]
      rw [if_pos (by simp [hid])]
    have hres := @getCachedProduct_malformed id opts
      ⟨hSet st.redis (generateHashKey id opts.pfx) (hashUpdates fields now),
        st.stats, st.connected, st.netFail⟩
      (hashMerge [] (hashUpdates fields now))
      (.plainError "Invalid product hash data: missing required fields")
      hconn hnf huse hget (hashMerge_nil_hashUpdates_ne_nil fields now) hrec
    rw [hres]
    rfl

/-- Witness for C10: a name-only update for the uncached id 9 creates an
id-less, expiry-less entry whose subsequent read errors. -/
theorem updateProductHash_absent_entry_witness :
    (updateProductHash 9 ⟨some "X", none, none⟩ "T2" ⟨none, none, some true⟩
      ⟨⟨[], [], []⟩, zeroStats, true, fun _ => false⟩).result = .ok ()
    ∧ (∀ f, alookup (hGetAll
          (updateProductHash 9 ⟨some "X", none, none⟩ "T2"
            ⟨none, none, some true⟩
            ⟨⟨[], [], []⟩, zeroStats, true,
              fun _ => false⟩).state.redis
          (generateHashKey 9 none)) f
        = alookup (hashUpdates ⟨some "X", none, none⟩ "T2") f)
    ∧ alookup (hashUpdates ⟨some "X", none, none⟩ "T2") "id" = none
    ∧ alookup (updateProductHash 9 ⟨some "X", none, none⟩ "T2"
        ⟨none, none, some true⟩
        ⟨⟨[], [], []⟩, zeroStats, true,
          fun _ => false⟩).state.redis.ttls
        (generateHashKey 9 none) = none
    ∧ (getCachedProduct 9 ⟨none, none, some true⟩
        (updateProductHash 9 ⟨some "X", none, none⟩ "T2"
          ⟨none, none, some true⟩
          ⟨⟨[], [], []⟩, zeroStats, true, fun _ => false⟩).state).result
      = .error (.cacheOperationError
          ("Operation getCachedProduct failed after 3 retries: Invalid product hash data: missing required fields")
          "getCachedProduct"
          (.plainError "Invalid product hash data: missing required fields")) :=
  updateProductHash_absent_entry 9 ⟨some "X", none, none⟩ "T2"
    ⟨none, none, some true⟩ ⟨⟨[], [], []⟩, zeroStats, true, fun _ => false⟩
    rfl (fun _ => rfl) rfl rfl rfl

/-- Counterexample for C4: reading the hash `{id: "abc", name: "A",
price: "1", category: "C"}` surfaces a `CacheOperationError` — the same
class every exhausted retry produces — wrapping the plain validation
`Error`; it is not a `CacheDataError`, so the surfaced failure is not
distinct from a generic operation error. -/
theorem getCachedProduct_malformed_not_dataError :
    (getCachedProduct 7 noOptions
      ⟨⟨[("products_hash:7", [("id", "abc"), ("name", "A"), ("price", "1"),
          ("category", "C")])], [], []⟩, zeroStats, true,
        fun _ => false⟩).result
      = .error (.cacheOperationError
          "Operation getCachedProduct failed after 3 retries: Invalid product hash data: invalid ID"
          "getCachedProduct"
          (.plainError "Invalid product hash data: invalid ID"))
    ∧ (∀ m, (getCachedProduct 7 noOptions
        ⟨⟨[("products_hash:7", [("id", "abc"), ("name", "A"), ("price", "1"),
            ("category", "C")])], [], []⟩, zeroStats, true,
          fun _ => false⟩).result ≠ .error (.cacheDataError m)) := by
  have h1 : (getCachedProduct 7 noOptions
      ⟨⟨[("products_hash:7", [("id", "abc"), ("name", "A"), ("price", "1"),
          ("category", "C")])], [], []⟩, zeroStats, true,
        fun _ => false⟩).result
      = .error (.cacheOperationError
          "Operation getCachedProduct failed after 3 retries: Invalid product hash data: invalid ID"
          "getCachedProduct"
          (.plainError "Invalid product hash data: invalid ID")) := by decide
  refine ⟨h1, fun m hm => ?_⟩
  rw [h1] at hm
  simp at hm

/-- C4 (amended). A hash-mode read of a non-empty malformed hash (a
required field missing, an id not parsing to a positive number, or a price
not parsing to a non-negative one — i.e. the validating reconstruction
throws) fails with an error rather than returning a miss or an entity, and
does not crash the read path; the surfaced error, however, is the generic
`CacheOperationError` wrapping the validation `Error` after retry
exhaustion, not a distinct data-validation error class. -/
theorem getCachedProduct_malformed_error
    (id : Nat) (opts : CacheOptions) (st : EngineState)
    (h : List (String × String)) (e : JsError)
    (hconn : st.connected = true) (hnf : ∀ n, st.netFail n = false)
    (huse : opts.useHash.getD true = true)
    (hh : hGetAll st.redis (generateHashKey id opts.pfx) = h)
    (hne : h ≠ []) (hrec : reconstructProductFromHash h = .error e) :
    (getCachedProduct id opts st).result
      = .error (.cacheOperationError
          ("Operation getCachedProduct failed after 3 retries: "
            ++ e.message) "getCachedProduct" e)
    ∧ (getCachedProduct id opts st).result ≠ .ok none
    ∧ ∀ p, (getCachedProduct id opts st).result ≠ .ok (some p) := by
  rw [getCachedProduct_malformed hconn hnf huse hh hne hrec]
  exact ⟨rfl, by simp, fun p => by simp⟩

/-- Witness for the amended C4 at the concrete malformed hash. -/
theorem getCachedProduct_malformed_error_witness :
    (getCachedProduct 7 noOptions
      ⟨⟨[("products_hash:7", [("id", "abc"), ("name", "A"), ("price", "1"),
          ("category", "C")])], [], []⟩, zeroStats, true,
        fun _ => false⟩).result
      = .error (.cacheOperationError
          ("Operation getCachedProduct failed after 3 retries: "
            ++ (JsError.plainError
              "Invalid product hash data: invalid ID").message)
          "getCachedProduct"
          (.plainError "Invalid product hash data: invalid ID"))
    ∧ (getCachedProduct 7 noOptions
      ⟨⟨[("products_hash:7", [("id", "abc"), ("name", "A"), ("price", "1"),
          ("category", "C")])], [], []⟩, zeroStats, true,
        fun _ => false⟩).result ≠ .ok none
    ∧ ∀ p, (getCachedProduct 7 noOptions
      ⟨⟨[("products_hash:7", [("id", "abc"), ("name", "A"), ("price", "1"),
          ("category", "C")])], [], []⟩, zeroStats, true,
        fun _ => false⟩).result ≠ .ok (some p) :=
  getCachedProduct_malformed_error 7 noOptions
    ⟨⟨[("products_hash:7", [("id", "abc"), ("name", "A"), ("price", "1"),
        ("category", "C")])], [], []⟩, zeroStats, true, fun _ => false⟩
    [("id", "abc"), ("name", "A"), ("price", "1"), ("category", "C")]
    (.plainError "Invalid product hash data: invalid ID")
    rfl (fun _ => rfl) rfl (by decide) (by decide) (by decide)

/-- C3. `executeWithRetry` under the default policy, applied to an
operation failing on every attempt (leaving the state as it found it),
invokes the operation exactly 4 times, sleeps 100, 200 and 400 ms before
the second, third and fourth attempts, increments the error counter by
one, and raises a `CacheOperationError` that names the failed operation
and wraps the last underlying error. -/
theorem executeWithRetry_exhaustion {α : Type}
    (op : Nat → EngineState → Except JsError α × EngineState)
    (name : String) (es : Nat → JsError) (st : EngineState)
    (hop : ∀ n st', st'.redis = st.redis → st'.connected = st.connected →
      st'.netFail = st.netFail → op n st' = (.error (es n), st')) :
    (executeWithRetry op name defaultRetryConfig st).calls = 4
    ∧ (executeWithRetry op name defaultRetryConfig st).sleeps
        = [100, 200, 400]
    ∧ (executeWithRetry op name defaultRetryConfig st).result
        = .error (.cacheOperationError
            ("Operation " ++ name ++ " failed after 3 retries: "
              ++ (es 3).message) name (es 3))
    ∧ (executeWithRetry op name defaultRetryConfig st).state.stats.errors
        = st.stats.errors + 1 := by
  rw [executeWithRetry_all_fail op name es (fun s => s) st
    (fun n st' hr hc hn => hop n st' hr hc hn)]
  refine ⟨rfl, rfl, rfl, ?_⟩
  simp [failStatsAfter, updateStats]

/-- Witness for C3 with a concrete always-failing operation. -/
theorem executeWithRetry_exhaustion_witness :
    (executeWithRetry
      (fun _ (s : EngineState) =>
        ((.error (.plainError "boom") : Except JsError Unit), s))
      "cacheProduct" defaultRetryConfig
      ⟨⟨[], [], []⟩, zeroStats, true, fun _ => false⟩).calls = 4
    ∧ (executeWithRetry
      (fun _ (s : EngineState) =>
        ((.error (.plainError "boom") : Except JsError Unit), s))
      "cacheProduct" defaultRetryConfig
      ⟨⟨[], [], []⟩, zeroStats, true, fun _ => false⟩).sleeps
        = [100, 200, 400]
    ∧ (executeWithRetry
      (fun _ (s : EngineState) =>
        ((.error (.plainError "boom") : Except JsError Unit), s))
      "cacheProduct" defaultRetryConfig
      ⟨⟨[], [], []⟩, zeroStats, true, fun _ => false⟩).result
        = .error (.cacheOperationError
            "Operation cacheProduct failed after 3 retries: boom"
            "cacheProduct" (.plainError "boom"))
    ∧ (executeWithRetry
      (fun _ (s : EngineState) =>
        ((.error (.plainError "boom") : Except JsError Unit), s))
      "cacheProduct" defaultRetryConfig
      ⟨⟨[], [], []⟩, zeroStats, true,
        fun _ => false⟩).state.stats.errors = 0 + 1 :=
  executeWithRetry_exhaustion
    (fun _ (s : EngineState) =>
      ((.error (.plainError "boom") : Except JsError Unit), s))
    "cacheProduct" (fun _ => .plainError "boom")
    ⟨⟨[], [], []⟩, zeroStats, true, fun _ => false⟩
    (fun _ _ _ _ _ => rfl)

/-- C2. In every Catalog Service operation whose persistence calls
succeed, no error raised by a cache-engine call escapes to the caller:
`createProduct` returns the saved row, `getProductById` returns the cache
hit or else the persistence row (a throwing cache read is treated as a
miss), `getProducts` succeeds, `updateProduct` returns the updated row (or
null when the row is absent), and `deleteProduct` reports whether a row was
removed — all regardless of the cache state, including disconnected or
corrupted caches whose calls throw. -/
theorem productService_swallows_cache_errors :
    (∀ data saved now st,
      (createProductS data (.ok saved) now st).1 = .ok saved)
    ∧ (∀ id dbp now st,
      (getProductByIdS id (.ok dbp) now st).1
        = .ok (match
            (getCachedProduct id ⟨none, none, some true⟩ st).result with
          | .ok (some p) => some p
          | _ => dbp))
    ∧ (∀ options rows total st,
      exceptOk (getProductsS options (.ok (rows, total)) st).1 = true)
    ∧ (∀ id dn found saved now st,
      (updateProductS id dn (.ok found) (.ok saved) now st).1
        = .ok (found.map (fun _ => saved)))
    ∧ (∀ id n st,
      (deleteProductS id (.ok n) st).1 = .ok (decide (0 < n))) := by
  refine ⟨?_, ?_, ?_, ?_, ?_⟩
  · intro data saved now st
    simp only [createProductS]
    cases h : (cacheProduct saved now ⟨none, none, some true⟩ st).result <;>
      simp [h]
  · intro id dbp now st
    simp only [getProductByIdS]
    cases h : (getCachedProduct id ⟨none, none, some true⟩ st).result with
    | ok v => cases v <;> cases dbp <;> simp [h]
    | error e => cases dbp <;> simp [h]
  · intro options rows total st
    simp only [getProductsS]
    split
    · rfl
    · rfl
  · intro id dn found saved now st
    simp only [updateProductS]
    cases found with
    | none => simp
    | some p0 =>
        cases h : (updateProductHash id
          ⟨some saved.name, some saved.price, some saved.category⟩ now
          noOptions st).result <;> simp [h]
  · intro id n st
    simp only [deleteProductS]
    by_cases hn : 0 < n
    · cases h : (invalidateProduct id noOptions st).result <;>
        simp [h, hn]
    · simp [hn]

/-- C9. A `getProducts` call answered from the cache reports `total`
equal to the length of the cached page array and `totalPages` derived from
that length, independently of the database's row count for the same
filter; so when the filter matches more rows than one page, the cache-hit
response and the cache-miss response of the same query disagree in `total`
and `totalPages`. -/
theorem getProducts_cacheHit_total
    (options : ProductQueryOptions) (rows : List Product) (total : Nat)
    (st st' : EngineState) (c : String) (L : List Product)
    (hconn : st.connected = true) (hnf0 : st.netFail 0 = false)
    (hcache : redisGet st.redis (generateKey ("list:"
        ++ generateProductsCacheKey (options.page.getD defaultPage)
          (min (options.limit.getD defaultLimit) maxLimit)
          options.category options.name) none) = some c)
    (hparse : jsonParseProducts c = .ok L)
    (hconn' : st'.connected = true) (hnf0' : st'.netFail 0 = false)
    (hmiss : redisGet st'.redis (generateKey ("list:"
        ++ generateProductsCacheKey (options.page.getD defaultPage)
          (min (options.limit.getD defaultLimit) maxLimit)
          options.category options.name) none) = none)
    (hlen : L.length = min (options.limit.getD defaultLimit) maxLimit)
    (hmore : min (options.limit.getD defaultLimit) maxLimit < total)
    (hpos : 0 < min (options.limit.getD defaultLimit) maxLimit) :
    (getProductsS options (.ok (rows, total)) st).1
      = .ok { products := L, total := L.length,
              page := options.page.getD defaultPage,
              limit := min (options.limit.getD defaultLimit) maxLimit,
              totalPages := jsCeilDiv L.length
                (min (options.limit.getD defaultLimit) maxLimit) }
    ∧ (getProductsS options (.ok (rows, total)) st').1
      = .ok { products := rows, total := total,
              page := options.page.getD defaultPage,
              limit := min (options.limit.getD defaultLimit) maxLimit,
              totalPages := jsCeilDiv total
                (min (options.limit.getD defaultLimit) maxLimit) }
    ∧ L.length ≠ total
    ∧ jsCeilDiv L.length (min (options.limit.getD defaultLimit) maxLimit)
      ≠ jsCeilDiv total (min (options.limit.getD defaultLimit) maxLimit) := by
  have hhit := @getCachedProducts_hit
    (generateProductsCacheKey (options.page.getD defaultPage)
      (min (options.limit.getD defaultLimit) maxLimit)
      options.category options.name) noOptions st c L hconn hnf0 hcache
    hparse
  have hmiss2 := @getCachedProducts_miss
    (generateProductsCacheKey (options.page.getD defaultPage)
      (min (options.limit.getD defaultLimit) maxLimit)
      options.category options.name) noOptions st' hconn' hnf0' hmiss
  have hceil1 : jsCeilDiv L.length
      (min (options.limit.getD defaultLimit) maxLimit) = 1 := by
    rw [hlen, jsCeilDiv]
    exact Nat.div_eq_of_lt_le (by omega) (by omega)
  have hceil2 : 2 ≤ jsCeilDiv total
      (min (options.limit.getD defaultLimit) maxLimit) := by
    rw [jsCeilDiv, Nat.le_div_iff_mul_le hpos]
    omega
  refine ⟨?_, ?_, by omega, by omega⟩
  · simp only [getProductsS]
    rw [hhit]
  · simp only [getProductsS]
    rw [hmiss2]

/-- Witness for C9: a one-element cached page for a query whose filter
matches five database rows. -/
theorem getProducts_cacheHit_total_witness :
    (getProductsS ⟨some 1, some 1, none, none⟩
      (.ok ([⟨7, "A", 1, "C"⟩, ⟨8, "B", 2, "C"⟩], 5))
      ⟨⟨[], [("product:list:products:list:1:1::",
          "[\x7b\"id\":7,\"name\":\"A\",\"price\":1,\"category\":\"C\"\x7d]")],
        []⟩, zeroStats, true, fun _ => false⟩).1
      = .ok { products := [⟨7, "A", 1, "C"⟩], total := 1, page := 1,
              limit := 1, totalPages := 1 }
    ∧ (getProductsS ⟨some 1, some 1, none, none⟩
      (.ok ([⟨7, "A", 1, "C"⟩, ⟨8, "B", 2, "C"⟩], 5))
      ⟨⟨[], [], []⟩, zeroStats, true, fun _ => false⟩).1
      = .ok { products := [⟨7, "A", 1, "C"⟩, ⟨8, "B", 2, "C"⟩], total := 5,
              page := 1, limit := 1, totalPages := 5 }
    ∧ ([(⟨7, "A", 1, "C"⟩ : Product)].length ≠ 5)
    ∧ jsCeilDiv [(⟨7, "A", 1, "C"⟩ : Product)].length 1 ≠ jsCeilDiv 5 1 := by
  have h := getProducts_cacheHit_total ⟨some 1, some 1, none, none⟩
    [⟨7, "A", 1, "C"⟩, ⟨8, "B", 2, "C"⟩] 5
    ⟨⟨[], [("product:list:products:list:1:1::",
        "[\x7b\"id\":7,\"name\":\"A\",\"price\":1,\"category\":\"C\"\x7d]")],
      []⟩, zeroStats, true, fun _ => false⟩
    ⟨⟨[], [], []⟩, zeroStats, true, fun _ => false⟩
    "[\x7b\"id\":7,\"name\":\"A\",\"price\":1,\"category\":\"C\"\x7d]"
    [⟨7, "A", 1, "C"⟩]
    rfl rfl (by decide) (by decide) rfl rfl (by decide) (by decide)
    (by decide) (by decide)
  exact h

/-! ### Lemmas: statistics accounting of clean reads -/

/-- A read body that returns normally has recorded exactly one hit or miss
(according to whether it returned a value) and changed nothing else. -/
theorem getCachedProductBody_ok_inv {id : Nat} {opts : CacheOptions}
    {st st' : EngineState} {v : Option Product}
    (hb : getCachedProductBody id opts 0 st = (.ok v, st')) :
    st' = { st with stats := updateStats st.stats v.isSome false false } := by
  unfold getCachedProductBody at hb
  dsimp only at hb
  split at hb
  · simp at hb
  · split at hb
    · simp at hb
    · split at hb
      · split at hb
        · split at hb
          · simp only [Prod.mk.injEq] at hb
            rcases hb with ⟨h1, h2⟩
            injection h1 with h1
            subst h1
            exact h2.symm
          · simp at hb
        · simp only [Prod.mk.injEq] at hb
          rcases hb with ⟨h1, h2⟩
          injection h1 with h1
          subst h1
          exact h2.symm
      · split at hb
        · split at hb
          · simp only [Prod.mk.injEq] at hb
            rcases hb with ⟨h1, h2⟩
            injection h1 with h1
            subst h1
            exact h2.symm
          · simp at hb
        · simp only [Prod.mk.injEq] at hb
          rcases hb with ⟨h1, h2⟩
          injection h1 with h1
          subst h1
          exact h2.symm

theorem getCachedProductsBody_ok_inv {key : String} {opts : CacheOptions}
    {st st' : EngineState} {v : Option (List Product)}
    (hb : getCachedProductsBody key opts 0 st = (.ok v, st')) :
    st' = { st with stats := updateStats st.stats v.isSome false false } := by
  unfold getCachedProductsBody at hb
  dsimp only at hb
  split at hb
  · simp at hb
  · split at hb
    · simp at hb
    · split at hb
      · split at hb
        · simp only [Prod.mk.injEq] at hb
          rcases hb with ⟨h1, h2⟩
          injection h1 with h1
          subst h1
          exact h2.symm
        · simp at hb
      · simp only [Prod.mk.injEq] at hb
        rcases hb with ⟨h1, h2⟩
        injection h1 with h1
        subst h1
        exact h2.symm

/-- The outcome of a read attempt depends only on the keyspace, the
connection flag and the failure schedule — never on the statistics. -/
theorem getCachedProductBody_fst_congr {id : Nat} {opts : CacheOptions}
    {n : Nat} {st st' : EngineState}
    (hr : st'.redis = st.redis) (hc : st'.connected = st.connected)
    (hn : st'.netFail = st.netFail) :
    (getCachedProductBody id opts n st').1
      = (getCachedProductBody id opts n st).1 := by
  unfold getCachedProductBody
  rw [hr, hc, hn]
  dsimp only
  split
  · rfl
  · split
    · rfl
    · split
      · split
        · split <;> rfl
        · rfl
      · split
        · split <;> rfl
        · rfl

theorem getCachedProductsBody_fst_congr {key : String}
    {opts : CacheOptions} {n : Nat} {st st' : EngineState}
    (hr : st'.redis = st.redis) (hc : st'.connected = st.connected)
    (hn : st'.netFail = st.netFail) :
    (getCachedProductsBody key opts n st').1
      = (getCachedProductsBody key opts n st).1 := by
  unfold getCachedProductsBody
  rw [hr, hc, hn]
  dsimp only
  split
  · rfl
  · split
    · rfl
    · split
      · split <;> rfl
      · rfl

theorem firstAttemptOk_congr (c : ReadCall) {st st' : EngineState}
    (hr : st'.redis = st.redis) (hc : st'.connected = st.connected)
    (hn : st'.netFail = st.netFail) :
    firstAttemptOk c st' = firstAttemptOk c st := by
  cases c with
  | single id opts =>
      simp [firstAttemptOk, getCachedProductBody_fst_congr hr hc hn]
  | list key opts =>
      simp [firstAttemptOk, getCachedProductsBody_fst_congr hr hc hn]

/-- A clean read call performs exactly one statistics update, recording a
hit or a miss; the keyspace, connection flag and failure schedule are
untouched, and the recorded outcome matches the call's result. -/
theorem runRead_clean (c : ReadCall) (st : EngineState)
    (h : firstAttemptOk c st = true) :
    runRead c st
      = { st with stats := updateStats st.stats (readHit c st) false false } := by
  cases c with
  | single id opts =>
      rcases hb : getCachedProductBody id opts 0 st with ⟨r, st2⟩
      rw [firstAttemptOk, hb] at h
      cases r with
      | error e => simp [exceptOk] at h
      | ok v =>
          have hrun : getCachedProduct id opts st
              = { result := .ok v, state := st2, sleeps := [], calls := 1 } :=
            executeWithRetry_first_ok _ _ _ _ _ hb
          have hst2 := getCachedProductBody_ok_inv hb
          rw [runRead, hrun, readHit, hrun]
          rw [hst2]
          cases v <;> rfl
  | list key opts =>
      rcases hb : getCachedProductsBody key opts 0 st with ⟨r, st2⟩
      rw [firstAttemptOk, hb] at h
      cases r with
      | error e => simp [exceptOk] at h
      | ok v =>
          have hrun : getCachedProducts key opts st
              = { result := .ok v, state := st2, sleeps := [], calls := 1 } :=
            executeWithRetry_first_ok _ _ _ _ _ hb
          have hst2 := getCachedProductsBody_ok_inv hb
          rw [runRead, hrun, readHit, hrun]
          rw [hst2]
          cases v <;> rfl

/-- A clean call's hit-or-miss outcome is determined by the keyspace, the
connection flag and the failure schedule alone. -/
theorem readHit_clean_congr (c : ReadCall) {st st' : EngineState}
    (hr : st'.redis = st.redis) (hc : st'.connected = st.connected)
    (hn : st'.netFail = st.netFail) (hcl : firstAttemptOk c st = true) :
    readHit c st' = readHit c st := by
  cases c with
  | single id opts =>
      rcases hb : getCachedProductBody id opts 0 st with ⟨r, st2⟩
      rw [firstAttemptOk, hb] at hcl
      cases r with
      | error e => simp [exceptOk] at hcl
      | ok v =>
          rcases hb' : getCachedProductBody id opts 0 st' with ⟨r', st2'⟩
          have hfst := @getCachedProductBody_fst_congr id opts 0 st st'
            hr hc hn
          rw [hb, hb'] at hfst
          have hr' : r' = .ok v := hfst
          subst hr'
          have hrun : getCachedProduct id opts st
              = { result := .ok v, state := st2, sleeps := [], calls := 1 } :=
            executeWithRetry_first_ok _ _ _ _ _ hb
          have hrun' : getCachedProduct id opts st'
              = { result := .ok v, state := st2', sleeps := [],
                  calls := 1 } :=
            executeWithRetry_first_ok _ _ _ _ _ hb'
          simp only [readHit]
          rw [hrun, hrun']
  | list key opts =>
      rcases hb : getCachedProductsBody key opts 0 st with ⟨r, st2⟩
      rw [firstAttemptOk, hb] at hcl
      cases r with
      | error e => simp [exceptOk] at hcl
      | ok v =>
          rcases hb' : getCachedProductsBody key opts 0 st' with ⟨r', st2'⟩
          have hfst := @getCachedProductsBody_fst_congr key opts 0 st st'
            hr hc hn
          rw [hb, hb'] at hfst
          have hr' : r' = .ok v := hfst
          subst hr'
          have hrun : getCachedProducts key opts st
              = { result := .ok v, state := st2, sleeps := [], calls := 1 } :=
            executeWithRetry_first_ok _ _ _ _ _ hb
          have hrun' : getCachedProducts key opts st'
              = { result := .ok v, state := st2', sleeps := [],
                  calls := 1 } :=
            executeWithRetry_first_ok _ _ _ _ _ hb'
          simp only [readHit]
          rw [hrun, hrun']

/-- One statistics update, component by component. -/
theorem updateStats_fields (s : CacheStats) (h e r : Bool) :
    (updateStats s h e r).hits = s.hits + (if h then 1 else 0)
    ∧ (updateStats s h e r).misses = s.misses + (if h then 0 else 1)
    ∧ (updateStats s h e r).operations = s.operations + 1
    ∧ (updateStats s h e r).errors = s.errors + (if e then 1 else 0)
    ∧ (updateStats s h e r).retries = s.retries + (if r then 1 else 0)
    ∧ (updateStats s h e r).hitRate
        = ((s.hits + (if h then 1 else 0) : Nat) : ℚ)
          / ((s.operations + 1 : Nat) : ℚ) * 100 := by
  cases h <;> cases e <;> cases r <;> simp [updateStats]

theorem length_filter_add_not {α : Type} (l : List α) (p : α → Bool) :
    (l.filter p).length + (l.filter (fun a => !p a)).length = l.length := by
  induction l with
  | nil => rfl
  | cons a t ih =>
      cases hpa : p a
      · simp [List.filter_cons, hpa]
        omega
      · simp [List.filter_cons, hpa]
        omega

/-- Statistics accounting for a sequence of clean reads: one hit or miss
per call, no errors, no retries, keyspace and environment untouched, and
the derived hit rate kept equal to `hits / operations * 100`. -/
theorem runReads_stats (calls : List ReadCall) :
    ∀ st₀ st : EngineState, st.redis = st₀.redis →
      st.connected = st₀.connected → st.netFail = st₀.netFail →
      (∀ c ∈ calls, firstAttemptOk c st₀ = true) →
      (runReads calls st).stats.hits
          = st.stats.hits + (calls.filter (fun c => readHit c st₀)).length
      ∧ (runReads calls st).stats.misses
          = st.stats.misses
            + (calls.filter (fun c => !readHit c st₀)).length
      ∧ (runReads calls st).stats.operations
          = st.stats.operations + calls.length
      ∧ (runReads calls st).stats.errors = st.stats.errors
      ∧ (runReads calls st).stats.retries = st.stats.retries
      ∧ (runReads calls st).redis = st₀.redis
      ∧ (runReads calls st).connected = st₀.connected
      ∧ (runReads calls st).netFail = st₀.netFail
      ∧ (calls ≠ [] →
          (runReads calls st).stats.hitRate
            = ((runReads calls st).stats.hits : ℚ)
              / ((runReads calls st).stats.operations : ℚ) * 100)
      ∧ (calls = [] →
          (runReads calls st).stats.hitRate = st.stats.hitRate) := by
  induction calls with
  | nil =>
      intro st₀ st hr hc hn _
      exact ⟨by simp [runReads], by simp [runReads], by simp [runReads],
        rfl, rfl, hr, hc, hn, by simp, fun _ => rfl⟩
  | cons c cs ih =>
      intro st₀ st hr hc hn hclean
      have hcl0 : firstAttemptOk c st₀ = true := hclean c (by simp)
      have hcl : firstAttemptOk c st = true := by
        rw [firstAttemptOk_congr c hr hc hn, hcl0]
      have hout : readHit c st = readHit c st₀ :=
        readHit_clean_congr c hr hc hn hcl0
      have hstep : runReads (c :: cs) st
          = runReads cs
            { st with
              stats := updateStats st.stats (readHit c st) false false } := by
        show runReads cs (runRead c st) = _
        rw [runRead_clean c st hcl]
      obtain ⟨ihh, ihm, iho, ihe, ihr, ihrd, ihcn, ihnf, ihrate, ihnil⟩ :=
        ih st₀
          { st with
            stats := updateStats st.stats (readHit c st) false false }
          hr hc hn (fun x hx => hclean x (by simp [hx]))
      obtain ⟨uh, um, uo, ue, ur, urate⟩ :=
        updateStats_fields st.stats (readHit c st) false false
      rw [hstep]
      refine ⟨?_, ?_, ?_, ?_, ?_, ihrd, ihcn, ihnf, fun _ => ?_, ?_⟩
      · rw [ihh, uh, List.filter_cons, hout]
        cases hrh : readHit c st₀
        all_goals simp
        all_goals omega
      · rw [ihm, um, List.filter_cons, hout]
        cases hrh : readHit c st₀
        all_goals simp
        all_goals omega
      · rw [iho, uo, List.length_cons]
        omega
      · rw [ihe, ue]
        simp
      · rw [ihr, ur]
        simp
      · cases hcs : cs with
        | nil =>
            rw [runReads]
            simp only [List.foldl]
            rw [urate, uh, uo]
        | cons d ds =>
            rw [hcs] at ihrate
            exact ihrate (by simp)
      · intro hfalse
        exact absurd hfalse (by simp)

/-- Counterexample to C5 as stated: a single `getCachedProduct` call made
while the client is disconnected bumps the operations counter four times
(once per retry bump and once at the final failure), not exactly once. -/
theorem read_operations_counterexample :
    (getCachedProduct 7 noOptions
        ⟨⟨[], [], []⟩, zeroStats, false,
          fun _ => false⟩).state.stats.operations = 4
    ∧ zeroStats.operations + 1 = 1 := ⟨by decide, rfl⟩

/-- C5 (amended). A cache read call (single or list) whose first attempt
completes without throwing increments the operations counter exactly once;
a read made while disconnected — whose every attempt fails — increments it
four times, once per retry bump during the retry loop and once at the
final failure. -/
theorem read_operations_increment (c : ReadCall) (st st' : EngineState)
    (hok : firstAttemptOk c st = true) (hdis : st'.connected = false) :
    (runRead c st).stats.operations = st.stats.operations + 1
    ∧ (∀ id opts,
        (getCachedProduct id opts st').state.stats.operations
          = st'.stats.operations + 4)
    ∧ (∀ key opts,
        (getCachedProducts key opts st').state.stats.operations
          = st'.stats.operations + 4) := by
  refine ⟨?_, ?_, ?_⟩
  · rw [runRead_clean c st hok]
    exact (updateStats_fields st.stats (readHit c st) false false).2.2.1
  · intro id opts
    rw [getCachedProduct_disconnected hdis]
    simp [failStatsAfter, updateStats]
  · intro key opts
    rw [getCachedProducts_disconnected hdis]
    simp [failStatsAfter, updateStats]

/-- Witness for C5: a clean miss on an empty connected cache, and
disconnected reads, from zeroed statistics. -/
theorem read_operations_increment_witness :
    firstAttemptOk (.single 7 noOptions)
        ⟨⟨[], [], []⟩, zeroStats, true, fun _ => false⟩ = true
    ∧ (EngineState.mk ⟨[], [], []⟩ zeroStats false
        (fun _ => false)).connected = false
    ∧ ((runRead (.single 7 noOptions)
          ⟨⟨[], [], []⟩, zeroStats, true, fun _ => false⟩).stats.operations
        = (EngineState.mk ⟨[], [], []⟩ zeroStats true
            (fun _ => false)).stats.operations + 1
      ∧ (∀ id opts,
          (getCachedProduct id opts
              ⟨⟨[], [], []⟩, zeroStats, false,
                fun _ => false⟩).state.stats.operations
            = (EngineState.mk ⟨[], [], []⟩ zeroStats false
                (fun _ => false)).stats.operations + 4)
      ∧ (∀ key opts,
          (getCachedProducts key opts
              ⟨⟨[], [], []⟩, zeroStats, false,
                fun _ => false⟩).state.stats.operations
            = (EngineState.mk ⟨[], [], []⟩ zeroStats false
                (fun _ => false)).stats.operations + 4)) :=
  ⟨by decide, rfl,
    read_operations_increment (.single 7 noOptions)
      ⟨⟨[], [], []⟩, zeroStats, true, fun _ => false⟩
      ⟨⟨[], [], []⟩, zeroStats, false, fun _ => false⟩ (by decide) rfl⟩

/-- Counterexample to C8 as stated: from all-zero statistics, one read
whose first attempt fails transiently and whose second attempt hits
produces one hit, no misses and zero errors among its outcomes, yet the
derived hit rate is 50, not `100 * 1 / (1 + 0) = 100` — the retry bump is
itself counted as a missed operation. -/
theorem hitRate_retried_counterexample :
    readHit (.single 7 noOptions) retryDemoState = true
    ∧ (runReads [.single 7 noOptions] retryDemoState).stats.errors = 0
    ∧ (runReads [.single 7 noOptions] retryDemoState).stats.hitRate = 50
    ∧ (50 : ℚ) ≠ 100 * 1 / (1 + 0) := by
  have h0 : getCachedProductBody 7 noOptions 0 retryDemoState
      = (.error (.plainError "Socket closed unexpectedly"),
          retryDemoState) := rfl
  have h1 : getCachedProductBody 7 noOptions 1
      ⟨retryDemoState.redis, updateStats retryDemoState.stats false false
        true, retryDemoState.connected, retryDemoState.netFail⟩
      = (.ok (some ⟨7, "A", 5, "C"⟩),
          ⟨retryDemoState.redis,
            updateStats (updateStats retryDemoState.stats false false true)
              true false false,
            retryDemoState.connected, retryDemoState.netFail⟩) :=
    @getCachedProductBody_hit 7 noOptions 1
      ⟨retryDemoState.redis, updateStats retryDemoState.stats false false
        true, retryDemoState.connected, retryDemoState.netFail⟩
      demoHash ⟨7, "A", 5, "C"⟩
      rfl rfl rfl (by decide) (by decide) (by decide)
  have hrun : getCachedProduct 7 noOptions retryDemoState
      = { result := .ok (some ⟨7, "A", 5, "C"⟩),
          state :=
            ⟨retryDemoState.redis,
              updateStats (updateStats retryDemoState.stats false false true)
                true false false,
              retryDemoState.connected, retryDemoState.netFail⟩,
          sleeps := [100], calls := 2 } :=
    executeWithRetry_second_ok _ _ _ _ _ _ h0 h1
  refine ⟨by decide, by decide, ?_, by norm_num⟩
  show (getCachedProduct 7 noOptions retryDemoState).state.stats.hitRate = 50
  rw [hrun]
  norm_num [updateStats, retryDemoState, zeroStats]

/-- C8 (amended). Starting from all-zero statistics, after any sequence of
cache reads each of which completes its first attempt without throwing
(producing `k` hits and `m` misses, with zero errors and no retries), the
derived hit rate equals `100 * k / (k + m)`, and equals 0 for the empty
sequence. -/
theorem hitRate_of_clean_reads (calls : List ReadCall)
    (st₀ : EngineState) (hz : st₀.stats = zeroStats)
    (hclean : ∀ c ∈ calls, firstAttemptOk c st₀ = true) :
    (runReads calls st₀).stats.errors = 0
    ∧ (runReads calls st₀).stats.hits
        = (calls.filter (fun c => readHit c st₀)).length
    ∧ (runReads calls st₀).stats.misses
        = (calls.filter (fun c => !readHit c st₀)).length
    ∧ (calls ≠ [] →
        (runReads calls st₀).stats.hitRate
          = 100 * ((calls.filter (fun c => readHit c st₀)).length : ℚ)
            / (((calls.filter (fun c => readHit c st₀)).length : ℚ)
              + ((calls.filter (fun c => !readHit c st₀)).length : ℚ)))
    ∧ (calls = [] → (runReads calls st₀).stats.hitRate = 0) := by
  obtain ⟨hh, hm, ho, he, -, -, -, -, hrate, hnil⟩ :=
    runReads_stats calls st₀ st₀ rfl rfl rfl hclean
  refine ⟨?_, ?_, ?_, ?_, ?_⟩
  · rw [he, hz]
    rfl
  · rw [hh, hz]
    simp [zeroStats]
  · rw [hm, hz]
    simp [zeroStats]
  · intro hne
    rw [hrate hne, hh, ho, hz]
    norm_num [zeroStats]
    rw [← length_filter_add_not calls (fun c => readHit c st₀)]
    push_cast
    ring
  · intro h0
    rw [hnil h0, hz]
    rfl

/-- Witness for C8: one hit and one miss against `demoState` give a hit
rate of `100 * 1 / (1 + 1) = 50`. -/
theorem hitRate_of_clean_reads_witness :
    demoState.stats = zeroStats
    ∧ (∀ c ∈ demoCalls, firstAttemptOk c demoState = true)
    ∧ ((runReads demoCalls demoState).stats.errors = 0
      ∧ (runReads demoCalls demoState).stats.hits
          = (demoCalls.filter (fun c => readHit c demoState)).length
      ∧ (runReads demoCalls demoState).stats.misses
          = (demoCalls.filter (fun c => !readHit c demoState)).length
      ∧ (demoCalls ≠ [] →
          (runReads demoCalls demoState).stats.hitRate
            = 100 * ((demoCalls.filter
                (fun c => readHit c demoState)).length : ℚ)
              / (((demoCalls.filter
                  (fun c => readHit c demoState)).length : ℚ)
                + ((demoCalls.filter
                    (fun c => !readHit c demoState)).length : ℚ)))
      ∧ (demoCalls = [] →
          (runReads demoCalls demoState).stats.hitRate = 0)) :=
  ⟨rfl, by decide, hitRate_of_clean_reads demoCalls demoState rfl
    (by decide)⟩

end RedisCacheModel
